import Mathlib

/-!
Verification of the ConceptMapSaaS text-to-concept-map pipeline.

This file gives a shallow embedding, in Lean 4, of the pipeline implemented in
`server/services/conceptMapService.js` (the canonical service, used by the HTTP
controller) and of the Mermaid renderer of
`server/services/fixed-conceptMapService.js`, and proves or refutes the frozen
specification claims about them.

Modelling conventions:
* JavaScript numbers are modelled as rationals (`ℚ`).  All arithmetic the
  pipeline performs on them (+, *, /, min, max, floor, ceil, round) is exact on
  the inputs that occur here; `ℚ` division by zero yields `0` where JavaScript
  would yield `NaN`/`Infinity`, and theorems about quotients carry hypotheses
  that keep every denominator positive, so no statement depends on that corner.
* JavaScript strings are Lean `String`s; the regex-based splits of the source
  (`split(/\s+/)`, `split(/[.!?]+/)`) are reproduced by explicit run-splitting
  functions with the same observable behaviour (including the empty fragments
  `String.prototype.split` produces at the ends).
* `Math.random()` draws made by `classifyRelationshipTypes` are modelled by an
  explicit oracle `rng : Nat → Fin 3`, one draw per relationship in list order;
  theorems quantify over every oracle.
* Wall-clock metadata fields (`processedAt`, `completedAt`, ...), the
  `hierarchy` tree and the `knowledgeGraph` aggregate are not modelled: no
  verified claim mentions them, and they do not feed back into any field a
  claim does mention.
* JavaScript object-key enumeration order is modelled as insertion order
  (association lists).  The only keys ever enumerated are cleaned words and
  small level numbers, for which this matches the engine's order on every
  input a verified statement touches.
-/

namespace ConceptMapService

/-! ## Character-level helpers (JS string primitives) -/

/-- JS `\s` (whitespace) for the characters that can occur here. -/
def jsIsWs (c : Char) : Bool := c.isWhitespace

/-- JS `\w` = `[A-Za-z0-9_]` (ASCII only). -/
def jsIsWordChar (c : Char) : Bool := c.isAlphanum || c = '_'

/-- The character class `[a-záéíóúüñ\w]` of `extractMainConcepts`. -/
def keepWordChar (c : Char) : Bool :=
  jsIsWordChar c || c = 'á' || c = 'é' || c = 'í' || c = 'ó' || c = 'ú' ||
    c = 'ü' || c = 'ñ'

/-- `String.prototype.toLowerCase` restricted to the character ranges the
pipeline can meet: ASCII letters plus the Spanish accented letters. -/
def jsToLower (c : Char) : Char :=
  if 'A' ≤ c ∧ c ≤ 'Z' then Char.ofNat (c.toNat + 32)
  else if c = 'Á' then 'á' else if c = 'É' then 'é' else if c = 'Í' then 'í'
  else if c = 'Ó' then 'ó' else if c = 'Ú' then 'ú' else if c = 'Ü' then 'ü'
  else if c = 'Ñ' then 'ñ' else c

/-- Lower-case a whole string (JS `toLowerCase`). -/
def lowerStr (s : String) : String := String.mk (s.data.map jsToLower)

/-- `word.toLowerCase().replace(/[^a-záéíóúüñ\w]/g, '')` of
`extractMainConcepts`: lower-case, then drop every character outside the kept
class. -/
def cleanWord (w : String) : String :=
  String.mk ((w.data.map jsToLower).filter keepWordChar)

/-- Substring test on character lists (`needle` occurs somewhere in `hay`). -/
def hasSubstr (hay needle : List Char) : Bool :=
  if needle.isPrefixOf hay then true
  else
    match hay with
    | [] => false
    | _ :: t => hasSubstr t needle

/-- `haystack.includes(needle)` (substring test). -/
def jsIncludes (haystack needle : String) : Bool :=
  hasSubstr haystack.data needle.data

/-- `sentence.toLowerCase().includes(name.toLowerCase())`, the co-occurrence
test of `identifyConceptRelationships`. -/
def containsLower (sentence name : String) : Bool :=
  jsIncludes (lowerStr sentence) (lowerStr name)

/-! ## Run splitting (JS `String.prototype.split` with a character-class
regex).  `splitRuns p l` is the list of maximal runs of characters *not*
satisfying `p`; the separator runs between them are discarded. -/

def splitRuns (p : Char → Bool) : List Char → List (List Char)
  | [] => []
  | c :: cs =>
    if p c then splitRuns p cs
    else
      match cs with
      | [] => [[c]]
      | d :: ds =>
        match splitRuns p (d :: ds) with
        | [] => [[c]]
        | r :: rs => if p d then [c] :: r :: rs else (c :: r) :: rs

/-- `text.split(/\s+/)`: the non-whitespace runs, plus the empty fragments the
JS engine produces when the string starts or ends with whitespace (and the
single empty fragment produced for the empty string). -/
def jsSplitWs (s : String) : List String :=
  if hs : s.data = [] then [""]
  else
    (if jsIsWs (s.data.head hs) then [""] else []) ++
      (splitRuns jsIsWs s.data).map String.mk ++
      (if jsIsWs (s.data.getLast hs) then [""] else [])

/-- `text.trim()`. -/
def jsTrim (s : String) : String :=
  String.mk ((s.data.dropWhile jsIsWs).reverse.dropWhile jsIsWs |>.reverse)

/-- `text.split(/[.!?]+/).filter(s => s.trim().length > 0)`: the sentence list
used by both `extractMainConcepts` and `identifyConceptRelationships`.  The
empty end fragments JS produces are removed by the `trim` filter anyway, so
only the non-separator runs survive. -/
def jsSentences (text : String) : List String :=
  ((splitRuns (fun c => c = '.' || c = '!' || c = '?') text.data).map
      String.mk).filter (fun s => (jsTrim s).length > 0)

/-! ## JS numeric helpers -/

/-- `Math.round` (half toward +∞). -/
def jsRound (q : ℚ) : ℤ := ⌊q + 1/2⌋

/-- `parseFloat(x.toFixed(2))`: round to two decimals.  (`toFixed` rounds the
decimal expansion of the IEEE double; on every value reached in this
development that agrees with exact half-up rounding.) -/
def round2 (q : ℚ) : ℚ := (jsRound (q * 100) : ℚ) / 100

/-- JS `x || d` for an optionally-absent number: `undefined` and `0` both fall
through to the default. -/
def jsOrQ (v : Option ℚ) (d : ℚ) : ℚ :=
  match v with
  | none => d
  | some x => if x = 0 then d else x

/-- JS `x || d` for an optionally-absent natural number (e.g. `level || 0`). -/
def jsOrN (v : Option ℕ) (d : ℕ) : ℕ :=
  match v with
  | none => d
  | some x => if x = 0 then d else x

/-! ## Data model (§3 of the spec, as realised by the canonical service) -/

/-- Visual attributes attached by `step5_OptimizeVisualPresentation`. -/
structure Formatting where
  bold : Bool
  underline : Bool
  color : String
  font : String
  padding : String
  deriving DecidableEq, Repr

/-- A concept node, with the fields the canonical service creates in
`extractMainConcepts` and later stages may fill in. -/
structure Concept where
  id : String
  name : String
  originalForm : String
  importance : ℚ
  frequency : ℕ
  level : ℕ
  firstOccurrence : ℤ
  isCritical : Bool
  definition : Option String := none
  examples : Option (List String) := none
  relatedTerms : Option (List String) := none
  /-- `classification` = `{category, domain}`. -/
  classification : Option (String × String) := none
  formatting : Option Formatting := none
  deriving DecidableEq, Repr

instance : Inhabited Concept :=
  ⟨{ id := "", name := "", originalForm := "", importance := 0, frequency := 0,
     level := 0, firstOccurrence := -1, isCritical := false }⟩

/-- A directed, typed, weighted edge between two concepts. -/
structure Relationship where
  id : String
  source : String
  target : String
  type : String
  semanticCategory : Option String := none
  strength : ℚ
  sharedSentences : ℕ
  visualWeight : Option ℤ := none
  lineStyle : Option String := none
  deriving DecidableEq, Repr

instance : Inhabited Relationship :=
  ⟨{ id := "", source := "", target := "", type := "", strength := 0,
     sharedSentences := 0 }⟩

/-- `metadata.limitationApplied` (written by the `maxConcepts` truncation at
the end of `processText`). -/
structure LimitInfo where
  conceptsRemoved : ℕ
  relationshipsRemoved : ℕ
  deriving DecidableEq, Repr

/-- `metadata.stageResults` (timestamps omitted, see the file header). -/
structure StageResults where
  organization : Option ℕ := none
  reasoning : Option ℕ := none
  /-- `(definitionsAdded, examplesAdded)`. -/
  enrichment : Option (ℕ × ℕ) := none
  /-- `(coherenceScore, conceptsRemoved, relationshipsRemoved)`. -/
  validation : Option (ℚ × ℕ × ℕ) := none
  /-- `(visualStyle, formatAttributesApplied)`. -/
  aesthetics : Option (String × ℕ) := none
  conclusion : Option ℕ := none
  deriving DecidableEq, Repr

/-- `result.metadata`. -/
structure Metadata where
  textLength : ℕ
  conceptCount : ℕ
  relationshipCount : ℕ
  stageResults : StageResults := {}
  semanticDepth : Option ℚ := none
  /-- `(definitionsCount, examplesCount, relatedTermsCount)`. -/
  enrichmentStats : Option (ℕ × ℕ × ℕ) := none
  coherenceScore : Option ℚ := none
  conceptsRemoved : Option ℕ := none
  relationshipsRemoved : Option ℕ := none
  warnings : List String := []
  limitationApplied : Option LimitInfo := none
  summary : Option String := none
  deriving DecidableEq, Repr

/-- The `Result` aggregate threaded through the stages.  The `hierarchy` tree
and `knowledgeGraph` are not modelled (file header). -/
structure Result where
  concepts : List Concept
  relationships : List Relationship
  metadata : Metadata
  conceptEmojis : List (String × String) := []
  content : String := ""
  deriving DecidableEq, Repr

/-- Per-stage enable flags. -/
structure Stages where
  organization : Bool := true
  reasoning : Bool := true
  enrichment : Bool := true
  validation : Bool := true
  aesthetics : Bool := true
  conclusion : Bool := true
  deriving DecidableEq, Repr

/-- The (merged) configuration consumed by `processText`.  JS merges the
caller's partial object over the defaults with a shallow spread; the model
quantifies over fully-populated configurations instead. -/
structure Config where
  maxConcepts : ℕ := 20
  style : String := "educational"
  stages : Stages := {}
  includeExamples : Bool := true
  includeDefinitions : Bool := true
  deriving DecidableEq, Repr

/-- The default configuration of `processText`. -/
def defaultConfig : Config := {}

/-! ## Stage 1: `extractMainConcepts` and ordering -/

/-- Map with the element index (a JS `forEach`/`map` with an index argument),
starting from index `i`. -/
def mapIdxFrom {α β : Type} (f : ℕ → α → β) : ℕ → List α → List β
  | _, [] => []
  | i, a :: as => f i a :: mapIdxFrom f (i + 1) as

/-- One pass of the word-frequency fold: bump the count of `w`, inserting it at
the end on first sight (JS object insertion order). -/
def bumpFreq (tbl : List (String × ℕ)) (w : String) : List (String × ℕ) :=
  match tbl with
  | [] => [(w, 1)]
  | (k, n) :: rest => if k = w then (k, n + 1) :: rest else (k, n) :: bumpFreq rest w

/-- The `wordFrequency` table: fold all split words, keeping only cleaned words
longer than 3 characters. -/
def wordFrequency (words : List String) : List (String × ℕ) :=
  words.foldl
    (fun tbl word =>
      let cw := cleanWord word
      if cw.length > 3 then bumpFreq tbl cw else tbl)
    []

/-- The fixed stop-word list of `extractMainConcepts`. -/
def commonWords : List String :=
  ["para", "como", "esto", "este", "esta", "estos", "estas", "pero", "porque"]

/-- Ordered insertion into an ascending list of naturals. -/
def insertAsc (x : ℕ) : List ℕ → List ℕ
  | [] => [x]
  | y :: ys => if x ≤ y then x :: y :: ys else y :: insertAsc x ys

/-- Ascending insertion sort on naturals (used for the numeric enumeration
order of JS object integer keys). -/
def sortAsc : List ℕ → List ℕ
  | [] => []
  | x :: xs => insertAsc x (sortAsc xs)

/-- Stable descending sort by a rational key (JS `Array.prototype.sort` with a
`(a, b) => key(b) - key(a)` comparator; V8's sort is stable). -/
def insertDesc {α : Type} (key : α → ℚ) (x : α) : List α → List α
  | [] => [x]
  | y :: ys => if key y ≤ key x then x :: y :: ys else y :: insertDesc key x ys

/-- Stable descending sort (earlier elements win ties). -/
def sortDescBy {α : Type} (key : α → ℚ) : List α → List α
  | [] => []
  | x :: xs => insertDesc key x (sortDescBy key xs)

/-- `text.toLowerCase().indexOf(word.toLowerCase())` (the `firstOccurrence`
field); `-1` when absent. -/
def jsIndexOfLower (text word : String) : ℤ :=
  let lt := (lowerStr text).data
  let lw := (lowerStr word).data
  match (List.range (lt.length + 1)).find? (fun i => lw.isPrefixOf (lt.drop i)) with
  | some i => (i : ℤ)
  | none => -1

/-- `findOriginalForm`: first match of `/\bword\w*\b/i` in `text`, or `word`
itself when there is none.  The leading `\b` requires position 0 or a
non-word character before the match; the trailing `\w*\b` extends the match
over the following word characters. -/
def findOriginalForm (word text : String) : String :=
  let lt := (lowerStr text).data
  let lw := (lowerStr word).data
  let hit := (List.range (lt.length + 1)).find? (fun i =>
    lw.isPrefixOf (lt.drop i) &&
      (i = 0 || !jsIsWordChar (lt.getD (i - 1) ' ')))
  match hit with
  | some i =>
    let rest := text.data.drop i
    String.mk (rest.take (lw.length +
      ((rest.drop lw.length).takeWhile jsIsWordChar).length))
  | none => word

/-- `extractMainConcepts` (canonical service): frequency-rank the cleaned
words, keep the top 15 non-stop-words, and build `Concept` records. -/
def extractMainConcepts (text : String) : List Concept :=
  let words := jsSplitWs text
  let freq := wordFrequency words
  let sortedWords :=
    sortDescBy (fun kv => (kv.2 : ℚ))
      (freq.filter (fun kv => ¬ commonWords.contains kv.1))
  mapIdxFrom (fun index kv =>
    let word := kv.1
    let importance : ℚ :=
      (kv.2 : ℚ) / (words.length : ℚ) * 100 + ((15 : ℚ) - index) / 3
    let level : ℕ := if index < 3 then 0 else if index < 8 then 1 else 2
    { id := "concept-" ++ toString index
      name := word
      originalForm := findOriginalForm word text
      importance := min importance 6
      frequency := kv.2
      level := level
      firstOccurrence := jsIndexOfLower text word
      isCritical := index < 5 }) 0 (sortedWords.take 15)

/-- `sortConceptsByRelevance`: group by level (ascending) and sort each level
by importance descending. -/
def sortConceptsByRelevance (concepts : List Concept) : List Concept :=
  let levels := sortAsc (concepts.map Concept.level).dedup
  levels.flatMap (fun l =>
    sortDescBy Concept.importance (concepts.filter (fun c => c.level = l)))

/-! ## Stage 2: relationship detection, classification, weighting -/

/-- The shared-sentence count between two concepts: sentences containing the
source's name, filtered again for the target's name. -/
def sharedCount (sentences : List String) (s t : Concept) : ℕ :=
  ((sentences.filter (fun x => containsLower x s.name)).filter
      (fun x => containsLower x t.name)).length

/-- `identifyConceptRelationships`: a co-occurrence edge for every ordered pair
of concepts with different ids sharing at least one sentence, with initial
`strength = min(shared + 1, 5)` and generic type. -/
def identifyConceptRelationships (text : String) (concepts : List Concept) :
    List Relationship :=
  let sentences := jsSentences text
  concepts.flatMap (fun source =>
    concepts.filterMap (fun target =>
      if source.id = target.id then none
      else
        let shared := sharedCount sentences source target
        if shared > 0 then
          some { id := "rel-" ++ source.id ++ "-" ++ target.id
                 source := source.id
                 target := target.id
                 type := "relacionado con"
                 strength := min ((shared : ℚ) + 1) 5
                 sharedSentences := shared }
        else none))

/-- The fixed relation-type table of `classifyRelationshipTypes`
(`(name, indicator)`; the unused `weight` column is omitted). -/
def relationTypes : List (String × String) :=
  [("es parte de", "pertenencia"), ("causa", "causalidad"),
   ("es un tipo de", "clasificación"), ("contiene", "composición"),
   ("influye en", "influencia"), ("se relaciona con", "asociación"),
   ("precede a", "secuencia"), ("requiere", "dependencia"),
   ("se opone a", "contraste")]

/-- `classifyRelationshipTypes`: pick a type index from the strength bucket,
using one `Math.random()` draw (the oracle `rng`, indexed by list position)
for the two non-trivial buckets. -/
def classifyRelationshipTypes (rng : ℕ → Fin 3) (rels : List Relationship) :
    List Relationship :=
  mapIdxFrom (fun i rel =>
    let typeIndex : ℕ :=
      if rel.strength ≥ 4 then (rng i).val
      else if rel.strength ≥ 2 then 4 + (rng i).val
      else 5
    let t := relationTypes.getD typeIndex ("se relaciona con", "asociación")
    { rel with type := t.1, semanticCategory := some t.2 }) 0 rels

/-- The semantic-type weight table of `assignRelationshipStrength`. -/
def typeWeights : List (String × ℚ) :=
  [("causa", 3/2), ("es un tipo de", 13/10), ("es parte de", 13/10),
   ("contiene", 6/5), ("requiere", 6/5), ("precede a", 11/10),
   ("influye en", 1), ("se opone a", 1), ("se relaciona con", 4/5)]

/-- `assignRelationshipStrength`: rescale strength by the type weight, clamp to
`[1, 5]`, and set `visualWeight = ceil(strength)`. -/
def assignRelationshipStrength (rels : List Relationship) : List Relationship :=
  rels.map (fun rel =>
    let weight := ((typeWeights.lookup rel.type).getD 1)
    let adjusted := min (max (rel.strength * weight) 1) 5
    { rel with strength := adjusted, visualWeight := some ⌈adjusted⌉ })

/-! ## Stage 3: semantic enrichment (canonical service) -/

/-- `generateConciseDefinition`: template indexed by
`(level + floor(importance)) % 4`. -/
def generateConciseDefinition (c : Concept) : String :=
  let defs : List String :=
    ["Término que hace referencia a " ++ c.name ++ " en el contexto del documento",
     "Concepto clave relacionado con la temática principal",
     "Elemento fundamental que representa " ++
       (if c.originalForm = "" then c.name else c.originalForm),
     "Componente que define aspectos esenciales del tema tratado"]
  defs.getD ((c.level + (⌊c.importance⌋).toNat) % 4) ""

/-- `findRelevantExamples`: the first `min(3, max(1, 3 - level))` template
examples. -/
def findRelevantExamples (c : Concept) : List String :=
  let examples : List String :=
    ["Ejemplo aplicado de " ++ (if c.originalForm = "" then c.name else c.originalForm),
     "Caso práctico que ilustra este concepto",
     "Instancia específica que demuestra su aplicación"]
  examples.take (min 3 (max 1 (3 - (c.level : ℤ)))).toNat

/-- `identifyRelatedTerms`. -/
def identifyRelatedTerms (c : Concept) : List String :=
  ["Término relacionado con " ++ c.name, "Sinónimo contextual"]

/-- `classifyConcept`: `categories[level] || categories[0]` with domain
`General`. -/
def classifyConcept (c : Concept) : String × String :=
  let categories : List String :=
    ["Concepto principal", "Concepto secundario", "Concepto terciario",
     "Detalle", "Ejemplo"]
  (categories.getD c.level (categories.getD 0 ""), "General")

/-- JS truthiness of an optionally-absent string (`undefined` and `""` are
falsy). -/
def jsSomeStr (o : Option String) : Bool :=
  match o with
  | some s => s ≠ ""
  | none => false

/-- JS truthiness of an optionally-absent list (`undefined` and a zero length
are falsy, via `xs?.length`). -/
def jsSomeList {α : Type} (o : Option (List α)) : Bool :=
  match o with
  | some l => l.length ≠ 0
  | none => false

/-- `step3_EnrichSemantically` per-concept update (canonical service): fill
`definition`, `examples`, `relatedTerms` and `classification` when absent. -/
def enrichConcept (c : Concept) : Concept :=
  { c with
    definition :=
      if jsSomeStr c.definition then c.definition
      else some (generateConciseDefinition c)
    examples :=
      if c.examples.isNone then some (findRelevantExamples c) else c.examples
    relatedTerms :=
      if c.relatedTerms.isNone then some (identifyRelatedTerms c)
      else c.relatedTerms
    classification :=
      if c.classification.isNone then some (classifyConcept c)
      else c.classification }

/-- The per-concept `semanticDepth` contribution of `step3`. -/
def conceptDepth (c : Concept) : ℚ :=
  (if jsSomeStr c.definition then 1 else 0) +
    (if jsSomeList c.examples then ((c.examples.getD []).length : ℚ) * (1/2) else 0) +
    (if jsSomeList c.relatedTerms then ((c.relatedTerms.getD []).length : ℚ) * (3/10) else 0)

/-- `step3_EnrichSemantically`: enrich every concept and record the
`semanticDepth` and `enrichmentStats` metadata. -/
def step3_EnrichSemantically (result : Result) : Result :=
  let concepts := result.concepts.map enrichConcept
  let semanticDepth :=
    (concepts.map conceptDepth).sum / (max 1 (concepts.length : ℚ))
  { result with
    concepts := concepts
    metadata :=
      { result.metadata with
        semanticDepth := some (round2 semanticDepth)
        enrichmentStats := some
          ((concepts.filter (fun c => jsSomeStr c.definition)).length,
           (concepts.map (fun c => (c.examples.getD []).length)).sum,
           (concepts.map (fun c => (c.relatedTerms.getD []).length)).sum) } }

/-! ## Stage 4: validation and coherence -/

/-- `filterIrrelevantConcepts`: keep a concept when `importance > 1.5`, or
`frequency > 1`, or it is critical. -/
def filterIrrelevantConcepts (concepts : List Concept) : List Concept :=
  concepts.filter (fun c =>
    c.importance > 3/2 || c.frequency > 1 || c.isCritical)

/-- One step of `removeRedundantConcepts`: `(seenNames, kept)` after examining
one concept. -/
def redundantStep (st : List String × List Concept) (c : Concept) :
    List String × List Concept :=
  let normalizedName := lowerStr c.name
  if st.1.contains normalizedName then st
  else
    let isDuplicate :=
      if normalizedName.length > 4 then
        st.1.any (fun name =>
          (normalizedName.data.take 4).isPrefixOf name.data &&
            name ≠ normalizedName)
      else false
    if isDuplicate then st
    else (st.1 ++ [normalizedName], st.2 ++ [c])

/-- `removeRedundantConcepts`: drop repeated normalized names and names whose
4-character prefix matches an already-seen different name. -/
def removeRedundantConcepts (concepts : List Concept) : List Concept :=
  (concepts.foldl redundantStep ([], [])).2

/-- `validateRelationshipCoherence`: keep edges whose endpoints are current
concept ids, then drop `es parte de` edges whose source level is not strictly
greater than the target level. -/
def validateRelationshipCoherence (relationships : List Relationship)
    (concepts : List Concept) : List Relationship :=
  let validConceptIds := concepts.map Concept.id
  let validRelationships := relationships.filter (fun rel =>
    validConceptIds.contains rel.source && validConceptIds.contains rel.target)
  validRelationships.filter (fun rel =>
    let sourceLevel := ((concepts.find? (fun c => c.id = rel.source)).map
      Concept.level).getD 0
    let targetLevel := ((concepts.find? (fun c => c.id = rel.target)).map
      Concept.level).getD 0
    !(rel.type = "es parte de" && sourceLevel ≤ targetLevel))

/-- The `connectivityRatio` of `calculateCoherenceScore`: distinct concept ids
touched by any edge, over the concept count. -/
def connectivityRatio (concepts : List Concept)
    (relationships : List Relationship) : ℚ :=
  ((relationships.flatMap (fun r => [r.source, r.target])).dedup.length : ℚ) /
    (concepts.length : ℚ)

/-- The `relationshipDensity` of `calculateCoherenceScore`: edge count over
`n * (n - 1) / 2`. -/
def relationshipDensity (concepts : List Concept)
    (relationships : List Relationship) : ℚ :=
  (relationships.length : ℚ) /
    ((concepts.length : ℚ) * ((concepts.length : ℚ) - 1) / 2)

/-- The `significanceRatio` of `calculateCoherenceScore`: edges with
`strength > 3` over `max(1, edgeCount)`. -/
def significanceRatio (relationships : List Relationship) : ℚ :=
  ((relationships.filter (fun rel => rel.strength > 3)).length : ℚ) /
    max 1 (relationships.length : ℚ)

/-- `calculateCoherenceScore` (canonical service), exactly as in the source:
`connectivity * 0.4 + density * 0.3 + significance * 0.3`. -/
def calculateCoherenceScore (concepts : List Concept)
    (relationships : List Relationship) : ℚ :=
  let connectedConceptIds :=
    (relationships.flatMap (fun r => [r.source, r.target])).dedup
  let connectivity := (connectedConceptIds.length : ℚ) / (concepts.length : ℚ)
  let strongRelationships :=
    (relationships.filter (fun rel => rel.strength > 3)).length
  let density := (relationships.length : ℚ) /
    ((concepts.length : ℚ) * ((concepts.length : ℚ) - 1) / 2)
  let significance := (strongRelationships : ℚ) /
    max 1 (relationships.length : ℚ)
  connectivity * (2/5) + density * (3/10) + significance * (3/10)

/-- The low-coherence warning message appended by `step4`. -/
def lowCoherenceWarning : String :=
  "El mapa conceptual tiene baja coherencia. Considere refinar el texto de entrada."

/-- `step4_VerifyAndValidate` (canonical service). -/
def step4_VerifyAndValidate (result : Result) : Result :=
  let originalConceptCount := result.concepts.length
  let originalRelationshipCount := result.relationships.length
  let relevantConcepts := filterIrrelevantConcepts result.concepts
  let uniqueConcepts := removeRedundantConcepts relevantConcepts
  let relationships :=
    validateRelationshipCoherence result.relationships uniqueConcepts
  let coherenceScore := calculateCoherenceScore uniqueConcepts relationships
  let md :=
    { result.metadata with
      coherenceScore := some (round2 coherenceScore)
      conceptsRemoved := some (originalConceptCount - uniqueConcepts.length)
      relationshipsRemoved :=
        some (originalRelationshipCount - relationships.length) }
  { result with
    concepts := uniqueConcepts
    relationships := relationships
    metadata :=
      if coherenceScore < 1/2 then
        { md with warnings := md.warnings ++ [lowCoherenceWarning] }
      else md }

/-! ## Stage 5: visual presentation (canonical service) -/

/-- A visual style preset of `getEducationalVisualSettings`. -/
structure VisualSettings where
  colorPalette : List String
  fontTitle : String
  fontConcept : String
  fontSubconcept : String
  fontDetail : String
  lineStrong : String
  lineMedium : String
  lineLight : String
  nodePadding : String
  levelMargin : String
  deriving DecidableEq, Repr

/-- `getEducationalVisualSettings`: the four named presets, defaulting to
`educational`. -/
def getEducationalVisualSettings (style : String) : VisualSettings :=
  if style = "minimal" then
    { colorPalette := ["#1f2937", "#374151", "#4b5563", "#6b7280", "#9ca3af"]
      fontTitle := "bold 16px \"Helvetica Neue\", sans-serif"
      fontConcept := "14px \"Helvetica Neue\", sans-serif"
      fontSubconcept := "13px \"Helvetica Neue\", sans-serif"
      fontDetail := "12px \"Helvetica Neue\", sans-serif"
      lineStrong := "2px solid", lineMedium := "1.5px solid"
      lineLight := "1px solid"
      nodePadding := "8px", levelMargin := "25px" }
  else if style = "colorful" then
    { colorPalette := ["#ef4444", "#f59e0b", "#10b981", "#3b82f6", "#8b5cf6"]
      fontTitle := "bold 18px \"Comic Sans MS\", cursive"
      fontConcept := "16px \"Comic Sans MS\", cursive"
      fontSubconcept := "14px \"Comic Sans MS\", cursive"
      fontDetail := "12px \"Comic Sans MS\", cursive"
      lineStrong := "3px dashed", lineMedium := "2px dashed"
      lineLight := "1px dashed"
      nodePadding := "12px", levelMargin := "35px" }
  else if style = "academic" then
    { colorPalette := ["#1e40af", "#047857", "#b45309", "#4f46e5", "#7e22ce"]
      fontTitle := "bold 16px \"Times New Roman\", serif"
      fontConcept := "15px \"Times New Roman\", serif"
      fontSubconcept := "14px \"Times New Roman\", serif"
      fontDetail := "13px \"Times New Roman\", serif"
      lineStrong := "2px solid", lineMedium := "1.5px solid"
      lineLight := "1px solid"
      nodePadding := "10px", levelMargin := "30px" }
  else
    { colorPalette := ["#3b82f6", "#10b981", "#f59e0b", "#6366f1", "#a855f7"]
      fontTitle := "bold 18px Arial, sans-serif"
      fontConcept := "16px Arial, sans-serif"
      fontSubconcept := "14px Arial, sans-serif"
      fontDetail := "12px Arial, sans-serif"
      lineStrong := "3px solid", lineMedium := "2px solid"
      lineLight := "1px solid"
      nodePadding := "10px", levelMargin := "30px" }

/-- `assignRelevantEmojis`: per-level emoji, overridden by the star for
critical concepts. -/
def assignRelevantEmojis (concepts : List Concept) : List (String × String) :=
  concepts.map (fun c =>
    (c.id,
      if c.isCritical then "⭐"
      else if c.level = 0 then "💡"
      else if c.level = 1 then "🔎"
      else if c.level = 2 then "📋"
      else "💡"))

/-- The per-concept formatting update of `step5` (the code only ever sets
`bold`/`underline` to `true`, so a previously-set flag survives). -/
def formatConcept (vs : VisualSettings) (c : Concept) : Concept :=
  let prior := c.formatting
  let bold := (prior.map Formatting.bold).getD false ||
    (c.level = 0 || c.importance > 4 || c.isCritical)
  let underline := (prior.map Formatting.underline).getD false ||
    (c.level = 1 && c.importance > 3)
  let colorIndex := c.level % vs.colorPalette.length
  let font :=
    if c.level = 0 then vs.fontTitle
    else if c.level = 1 then vs.fontConcept
    else if c.level = 2 then vs.fontSubconcept
    else vs.fontDetail
  { c with formatting := some {
      bold := bold, underline := underline,
      color := vs.colorPalette.getD colorIndex "",
      font := font, padding := vs.nodePadding } }

/-- The per-relationship visual update of `step5`. -/
def formatRelationship (vs : VisualSettings) (concepts : List Concept)
    (rel : Relationship) : Relationship :=
  let sourceImportance :=
    jsOrQ ((concepts.find? (fun c => c.id = rel.source)).map Concept.importance) 1
  let targetImportance :=
    jsOrQ ((concepts.find? (fun c => c.id = rel.target)).map Concept.importance) 1
  let relationStrength := jsOrQ (some rel.strength) 1
  let avgImportance := (sourceImportance + targetImportance) / 2
  let visualWeight :=
    max 1 (min 3 (jsRound ((avgImportance + relationStrength) / 2)))
  { rel with
    visualWeight := some visualWeight
    lineStyle := some
      (if visualWeight = 3 then vs.lineStrong
       else if visualWeight = 2 then vs.lineMedium
       else vs.lineLight) }

/-- `step5_OptimizeVisualPresentation` (canonical service). -/
def step5_OptimizeVisualPresentation (result : Result) (config : Config) :
    Result :=
  let vs := getEducationalVisualSettings config.style
  let conceptEmojis := assignRelevantEmojis result.concepts
  let concepts := result.concepts.map (formatConcept vs)
  { result with
    conceptEmojis := conceptEmojis
    concepts := concepts
    relationships := result.relationships.map (formatRelationship vs concepts) }

/-! ## Stage 6: descriptive summary (canonical service) -/

/-- The sorted list of distinct levels present (JS object integer keys are
enumerated in ascending numeric order). -/
def levelsPresent (concepts : List Concept) : List ℕ :=
  sortAsc (concepts.map Concept.level).dedup

/-- The display name of a level in the hierarchy distribution. -/
def levelName (l : ℕ) : String :=
  if l = 0 then "Principal"
  else if l = 1 then "Secundario"
  else if l = 2 then "Terciario"
  else "Nivel " ++ toString l

/-- `generateConceptualSummary` (canonical service). -/
def generateConceptualSummary (result : Result) : String :=
  let concepts := result.concepts
  let relationships := result.relationships
  let mainConcepts := concepts.filter (fun c => c.level = 0)
  let levels := levelsPresent concepts
  let relationshipTypes :=
    (relationships.map Relationship.type).foldl bumpFreq []
  let topRelationshipTypes :=
    ((sortDescBy (fun kv => (kv.2 : ℚ)) relationshipTypes).take 3).map
      (fun kv => "\"" ++ kv.1 ++ "\" (" ++ toString kv.2 ++ ")")
  "Este mapa conceptual representa una estructura de conocimiento con " ++
    toString concepts.length ++ " conceptos " ++
    "organizados en " ++ toString levels.length ++ " niveles jerárquicos, " ++
    "conectados mediante " ++ toString relationships.length ++
    " relaciones significativas.\n\n" ++
  (if mainConcepts.length > 0 then
    "Los conceptos principales son: " ++
      String.intercalate ", " (mainConcepts.map Concept.name) ++ ". "
   else "") ++
  (if topRelationshipTypes.length > 0 then
    "Las principales relaciones identificadas son: " ++
      String.intercalate ", " topRelationshipTypes ++ ".\n\n"
   else "") ++
  "Distribución jerárquica:\n" ++
  String.join (levels.map (fun l =>
    "- " ++ levelName l ++ ": " ++
      toString (concepts.filter (fun c => c.level = l)).length ++
      " conceptos\n")) ++
  (match result.metadata.enrichmentStats with
   | some (d, e, t) =>
     "\nEnriquecimiento semántico: " ++ toString d ++ " definiciones, " ++
       toString e ++ " ejemplos y " ++ toString t ++ " términos relacionados."
   | none => "") ++
  (match result.metadata.coherenceScore with
   | some score =>
     "\nLa coherencia global del mapa es del " ++
       toString (jsRound (score * 100)) ++ "%."
   | none => "") ++
  "\n\nRecomendaciones para uso educativo:\n" ++
  (if concepts.length > 15 then
    "- Este mapa es extenso y puede ser útil para una visión completa del tema.\n"
   else
    "- Este mapa es conciso y puede ser útil para introducir conceptos básicos.\n") ++
  "\nEste mapa conceptual está optimizado para facilitar la comprensión " ++
  "y el aprendizaje del tema tratado, estableciendo conexiones significativas " ++
  "entre conceptos y proporcionando contexto a través de definiciones y ejemplos."

/-! ## Content generation (canonical service): Markdown document -/

/-- `concept.originalForm || concept.name` (empty `originalForm` is falsy). -/
def displayName (c : Concept) : String :=
  if c.originalForm = "" then c.name else c.originalForm

/-- `emojis[id] || ''`. -/
def emojiFor (emojis : List (String × String)) (id : String) : String :=
  (emojis.lookup id).getD ""

/-- Whether `formatting?.bold` is truthy. -/
def fmtBold (c : Concept) : Bool := ((c.formatting.map Formatting.bold).getD false)

/-- Whether `formatting?.underline` is truthy. -/
def fmtUnderline (c : Concept) : Bool :=
  ((c.formatting.map Formatting.underline).getD false)

/-- The level-2 detail block rendered under one subconcept. -/
def renderDetails (relationships : List Relationship) (level2 : List Concept)
    (subConcept : Concept) : String :=
  let subRelations := relationships.filter (fun rel => rel.source = subConcept.id)
  let relatedDetails := level2.filter (fun detail =>
    subRelations.any (fun rel => rel.target = detail.id))
  if relatedDetails.length > 0 then
    "**Detalles relacionados:**\n" ++
      String.join (relatedDetails.map (fun detail =>
        let detailRelation := subRelations.find? (fun rel => rel.target = detail.id)
        let detailName0 := displayName detail
        let detailName := if fmtBold detail then "**" ++ detailName0 ++ "**"
          else detailName0
        "- **" ++ detailName ++ "**: " ++
          (match detailRelation with
           | some rel => "*" ++ rel.type ++ "* " ++ subConcept.name
           | none => "") ++ "\n")) ++ "\n"
  else ""

/-- One level-1 subconcept section of the canonical Markdown content. -/
def renderSubconcept (emojis : List (String × String))
    (relationships : List Relationship) (level2 : List Concept)
    (mainConcept : Concept) (relations : List Relationship)
    (subConcept : Concept) : String :=
  let relation := relations.find? (fun rel => rel.target = subConcept.id)
  let subEmoji := emojiFor emojis subConcept.id
  let n0 := displayName subConcept
  let n1 := if fmtBold subConcept then "**" ++ n0 ++ "**" else n0
  let subConceptName := if fmtUnderline subConcept then "<u>" ++ n1 ++ "</u>" else n1
  "### " ++ subEmoji ++ " " ++ subConceptName ++ "\n\n" ++
  (match relation with
   | some rel => "*" ++ rel.type ++ "* " ++ mainConcept.name ++ "\n\n"
   | none => "") ++
  (if jsSomeStr subConcept.definition then (subConcept.definition.getD "") ++ "\n\n"
   else "") ++
  (if jsSomeList subConcept.examples then
    "**Ejemplos:**\n" ++
      String.join ((subConcept.examples.getD []).map
        (fun ex => "- " ++ ex ++ "\n")) ++ "\n"
   else "") ++
  renderDetails relationships level2 subConcept ++
  (if jsSomeList subConcept.relatedTerms then
    "**Términos relacionados:** " ++
      String.intercalate ", " (subConcept.relatedTerms.getD []) ++ "\n\n"
   else "")

/-- One level-0 main-concept section of the canonical Markdown content. -/
def renderMainConcept (emojis : List (String × String))
    (relationships : List Relationship) (level1 level2 : List Concept)
    (mainConcept : Concept) : String :=
  let emoji := emojiFor emojis mainConcept.id
  let n0 := displayName mainConcept
  let conceptName := if fmtBold mainConcept then "**" ++ n0 ++ "**" else n0
  let relations := relationships.filter (fun rel => rel.source = mainConcept.id)
  let relatedSubconcepts := level1.filter (fun subConcept =>
    relations.any (fun rel => rel.target = subConcept.id))
  "## " ++ emoji ++ " " ++ conceptName ++ "\n\n" ++
  (if jsSomeStr mainConcept.definition then
    (mainConcept.definition.getD "") ++ "\n\n"
   else "") ++
  String.join (relatedSubconcepts.map
    (renderSubconcept emojis relationships level2 mainConcept relations))

/-- `generateEducationalConceptMap` (canonical service): a Markdown document
built from the level-0 concepts, their related level-1 subconcepts and the
level-2 details.  It contains no diagram-source node or edge lines. -/
def generateEducationalConceptMap (result : Result) : String :=
  let level0 := result.concepts.filter (fun c => c.level = 0)
  let level1 := result.concepts.filter (fun c => c.level = 1)
  let level2 := result.concepts.filter (fun c => c.level = 2)
  "# Mapa Conceptual\n\n" ++
    String.join (level0.map
      (renderMainConcept result.conceptEmojis result.relationships level1 level2))

/-! ## `maxConcepts` truncation and `processText` -/

/-- The truncation block at the end of `processText` (applied only when
`concepts.length > maxConcepts`): stable sort by importance descending, keep
the first `maxConcepts`, drop relationships with a missing endpoint, record
the removed counts in `metadata.limitationApplied`. -/
def applyLimit (result : Result) (config : Config) : Result :=
  let sorted := sortDescBy Concept.importance result.concepts
  let removedCount := sorted.length - config.maxConcepts
  let concepts := sorted.take config.maxConcepts
  let conceptIds := concepts.map Concept.id
  let originalRelationships := result.relationships.length
  let relationships := result.relationships.filter (fun r =>
    conceptIds.contains r.source && conceptIds.contains r.target)
  { result with
    concepts := concepts
    relationships := relationships
    metadata :=
      { result.metadata with
        limitationApplied := some
          { conceptsRemoved := removedCount
            relationshipsRemoved :=
              originalRelationships - relationships.length } } }

/-- `step1_OrganizeAndHierarchize` (the `hierarchy` tree it also builds is not
modelled, see the file header). -/
def step1_OrganizeAndHierarchize (text : String) (result : Result) : Result :=
  { result with concepts := sortConceptsByRelevance (extractMainConcepts text) }

/-- `step2_AnalyzeRelationships` (the `knowledgeGraph` it also builds is not
modelled, see the file header). -/
def step2_AnalyzeRelationships (rng : ℕ → Fin 3) (text : String)
    (result : Result) : Result :=
  { result with
    relationships :=
      assignRelationshipStrength
        (classifyRelationshipTypes rng
          (identifyConceptRelationships text result.concepts)) }

/-- The fresh `Result` object `processText` starts from. -/
def initResult (text : String) : Result :=
  { concepts := [], relationships := []
    metadata :=
      { textLength := text.length, conceptCount := 0, relationshipCount := 0 } }

/-- Stage-1 guard of `processText` (records `stageResults.organization`). -/
def runStage1 (config : Config) (text : String) (prev : Result) : Result :=
  if config.stages.organization then
    let r := step1_OrganizeAndHierarchize text prev
    { r with metadata := { r.metadata with stageResults :=
        { r.metadata.stageResults with organization := some r.concepts.length } } }
  else prev

/-- Stage-2 guard of `processText` (records `stageResults.reasoning`). -/
def runStage2 (config : Config) (rng : ℕ → Fin 3) (text : String)
    (prev : Result) : Result :=
  if config.stages.reasoning then
    let r := step2_AnalyzeRelationships rng text prev
    { r with metadata := { r.metadata with stageResults :=
        { r.metadata.stageResults with reasoning := some r.relationships.length } } }
  else prev

/-- Stage-3 guard of `processText` (records `stageResults.enrichment`). -/
def runStage3 (config : Config) (prev : Result) : Result :=
  if config.stages.enrichment then
    let r := step3_EnrichSemantically prev
    { r with metadata := { r.metadata with stageResults :=
        { r.metadata.stageResults with enrichment := some (
            (r.concepts.filter (fun c => jsSomeStr c.definition)).length,
             (r.concepts.filter (fun c => jsSomeList c.examples)).length) } } }
  else prev

/-- Stage-4 guard of `processText` (records `stageResults.validation`). -/
def runStage4 (config : Config) (prev : Result) : Result :=
  if config.stages.validation then
    let r := step4_VerifyAndValidate prev
    { r with metadata := { r.metadata with stageResults :=
        { r.metadata.stageResults with validation := some (
            jsOrQ r.metadata.coherenceScore 0,
             (r.metadata.conceptsRemoved).getD 0,
             (r.metadata.relationshipsRemoved).getD 0) } } }
  else prev

/-- Stage-5 guard of `processText` (records `stageResults.aesthetics`). -/
def runStage5 (config : Config) (prev : Result) : Result :=
  if config.stages.aesthetics then
    let r := step5_OptimizeVisualPresentation prev config
    { r with metadata := { r.metadata with stageResults :=
        { r.metadata.stageResults with aesthetics := some (
            config.style,
             (r.concepts.filter (fun c => c.formatting.isSome)).length) } } }
  else prev

/-- Stage-6 guard of `processText` (records the summary). -/
def runStage6 (config : Config) (prev : Result) : Result :=
  if config.stages.conclusion then
    let summary := generateConceptualSummary prev
    { prev with metadata := { prev.metadata with
        summary := some summary
        stageResults := { prev.metadata.stageResults with
          conclusion := some summary.length } } }
  else prev

/-- The `maxConcepts` guard of `processText`. -/
def runLimit (config : Config) (prev : Result) : Result :=
  if prev.concepts.length > config.maxConcepts then applyLimit prev config
  else prev

/-- `processText` (canonical service): the full pipeline.  The function is
total — the source has no input validation and no `throw` outside the
rethrowing `catch`, so every text produces a `Result`. -/
def processText (text : String) (config : Config) (rng : ℕ → Fin 3) : Result :=
  let r7 :=
    runLimit config
      (runStage6 config
        (runStage5 config
          (runStage4 config
            (runStage3 config
              (runStage2 config rng text
                (runStage1 config text (initResult text)))))))
  let r8 := { r7 with content := generateEducationalConceptMap r7 }
  { r8 with metadata := { r8.metadata with
      conceptCount := r8.concepts.length
      relationshipCount := r8.relationships.length } }

/-! ## Parsing emitted content back (round-trip check of claim C4) -/

/-- Split a character list at every occurrence of `sep`, keeping empty
fragments (the physical lines of a document). -/
def splitChar (sep : Char) : List Char → List (List Char)
  | [] => [[]]
  | c :: cs =>
    if c = sep then [] :: splitChar sep cs
    else
      match splitChar sep cs with
      | t :: ts => (c :: t) :: ts
      | [] => [[c]]

/-- The physical lines of a document. -/
def contentLines (s : String) : List String :=
  (splitChar '\n' s.data).map String.mk

/-- Characters allowed in a diagram node identifier. -/
def isIdChar (c : Char) : Bool := c.isAlphanum || c = '-' || c = '_'

/-- Whether a physical line is a node declaration `id["label"]` (possibly
indented), the node-line shape of the diagram-source grammar. -/
def isNodeDeclLine (s : String) : Bool :=
  let l := s.data.dropWhile (fun c => c = ' ')
  let idPart := l.takeWhile isIdChar
  let rest := l.dropWhile isIdChar
  !idPart.isEmpty && decide (rest.take 2 = ['[', '"']) && rest.length ≥ 4 &&
    decide (rest.drop (rest.length - 2) = ['"', ']'])

/-- The number of node-declaration lines of an emitted document. -/
def nodeDeclLineCount (s : String) : ℕ :=
  ((contentLines s).filter isNodeDeclLine).length

/-! ## The Mermaid renderer of `fixed-conceptMapService.js` (claim C4)

The fixed service's data model differs from the canonical one (concepts carry
`attributes`, `origin`, `icon`, `isMainConcept`; relationships carry a
`label`), so it gets its own structures, prefixed `F`. -/

/-- An entry of `concept.attributes` in the fixed service (`name` plus the
optional `subAttributes`; the unused `value`/`type` columns are omitted). -/
structure FAttribute where
  name : String
  subAttributes : List String := []
  deriving DecidableEq, Repr

/-- A concept as consumed by the fixed service's renderer. -/
structure FConcept where
  id : String
  name : String
  importance : Option ℚ := none
  isMainConcept : Bool := false
  icon : Option String := none
  definition : Option String := none
  attributes : List FAttribute := []
  examples : Option (List String) := none
  origin : Option String := none
  deriving DecidableEq, Repr

/-- A context note (`result.contextNotes`). -/
structure FNote where
  relatedConceptId : String
  content : String
  deriving DecidableEq, Repr

/-- A relationship as consumed by the fixed service's renderer. -/
structure FRel where
  source : String
  target : String
  label : Option String := none
  deriving DecidableEq, Repr

/-- The `Result` fields the fixed renderer reads. -/
structure FResult where
  concepts : List FConcept
  relationships : List FRel
  contextNotes : List FNote := []
  summary : Option String := none
  deriving DecidableEq, Repr

/-- One emitted line of the Mermaid block, classified by shape. -/
inductive MLine where
  /-- Header, class definition, comment or fence line. -/
  | raw (s : String)
  /-- `    id["label"]` -/
  | nodeDecl (id label : String)
  /-- `    class id cls;` -/
  | classAssign (id cls : String)
  /-- `    src --> tgt` (an unlabeled decoration edge). -/
  | arrow (src tgt : String)
  /-- `    src --> |"label"|tgt` (a relationship edge). -/
  | labeledArrow (src label tgt : String)
  deriving DecidableEq, Repr

/-- Serialize one Mermaid line exactly as the fixed service concatenates it. -/
def renderMLine : MLine → String
  | .raw s => s
  | .nodeDecl i l => "    " ++ i ++ "[\"" ++ l ++ "\"]\n"
  | .classAssign i c => "    class " ++ i ++ " " ++ c ++ ";\n"
  | .arrow s t => "    " ++ s ++ " --> " ++ t ++ "\n"
  | .labeledArrow s l t => "    " ++ s ++ " --> |\"" ++ l ++ "\"|" ++ t ++ "\n"

/-- The fixed Mermaid header (fence, comment and `classDef` lines). -/
def mermaidHeader : List MLine :=
  [.raw "```mermaid\nflowchart TD\n",
   .raw "    %% Definición de clases para estilizar nodos\n",
   .raw "    classDef mainConcept fill:#ffffff,stroke:#555,stroke-width:2.5px;\n",
   .raw "    classDef attributeNode fill:#FFF9C4,stroke:#FBC02D;\n",
   .raw "    classDef exampleNode fill:#ffffff,stroke:#2E7D32;\n",
   .raw "    classDef originNode fill:#ffffff,stroke:#6D4C41;\n",
   .raw "    classDef cloudNode fill:#ffffff,stroke:#795548,rx:25,ry:25;\n\n"]

/-- The lines emitted for one attribute of a concept. -/
def attrLines (conceptId : String) (index : ℕ) (attr : FAttribute) : List MLine :=
  let attrId := conceptId ++ "_attr_" ++ toString index
  [.nodeDecl attrId attr.name, .classAssign attrId "attributeNode",
   .arrow conceptId attrId] ++
  (mapIdxFrom (fun subIndex subAttr =>
    let subAttrId := attrId ++ "_sub_" ++ toString subIndex
    [MLine.nodeDecl subAttrId subAttr, .classAssign subAttrId "attributeNode",
     .arrow attrId subAttrId]) 0 attr.subAttributes).flatten

/-- The lines emitted for one concept (its own node declaration, plus the
decorative definition/attribute/example/origin nodes). -/
def conceptLines (mainId : String) (c : FConcept) : List MLine :=
  (if c.id = mainId then
    let iconPrefix := match c.icon with
      | some ic => if ic ≠ "" then ic ++ " " else ""
      | none => ""
    [MLine.nodeDecl c.id (iconPrefix ++ c.name), .classAssign c.id "mainConcept"]
   else [MLine.nodeDecl c.id c.name]) ++
  (if jsSomeStr c.definition then
    let defId := c.id ++ "_def"
    [MLine.nodeDecl defId (c.definition.getD ""), .arrow c.id defId]
   else []) ++
  (if c.attributes.length > 0 then
    (mapIdxFrom (attrLines c.id) 0 c.attributes).flatten
   else []) ++
  (if jsSomeList c.examples then
    let exampleId := c.id ++ "_examples"
    let exampleContent := "Ejemplos de uso:\n" ++
      String.join ((c.examples.getD []).map (fun ex => "• " ++ ex ++ "\n"))
    [MLine.nodeDecl exampleId exampleContent, .classAssign exampleId "exampleNode",
     .arrow c.id exampleId]
   else []) ++
  (if jsSomeStr c.origin then
    let originId := c.id ++ "_origin"
    let originContent := "Origen y matiz:\n• " ++ (c.origin.getD "") ++ "\n"
    [MLine.nodeDecl originId originContent, .classAssign originId "originNode",
     .arrow c.id originId]
   else [])

/-- The lines emitted for one context note. -/
def noteLines (index : ℕ) (note : FNote) : List MLine :=
  let noteId := "context_" ++ toString index
  [.nodeDecl noteId note.content, .classAssign noteId "cloudNode",
   .arrow note.relatedConceptId noteId]

/-- `identifyMainConcept` of the fixed service: an explicit `isMainConcept`
wins; otherwise the concept list is sorted by importance descending (a
mutation that persists into the renderer's traversal) and the head is taken,
with a placeholder when there are no concepts.  Returns the possibly-sorted
concept list together with the main concept's id and name. -/
def identifyMainConcept (concepts : List FConcept) :
    List FConcept × String × String :=
  match concepts.find? (fun c => c.isMainConcept) with
  | some m => (concepts, m.id, m.name)
  | none =>
    let sorted := sortDescBy (fun c => (c.importance).getD 0) concepts
    match sorted with
    | [] => (sorted, "main", "Concepto Principal")
    | m :: _ => (sorted, m.id, m.name)

/-- The full Mermaid line sequence of the fixed service's
`generateEducationalConceptMap`. -/
def mermaidLines (res : FResult) : List MLine :=
  let cmn := identifyMainConcept res.concepts
  mermaidHeader ++
    (cmn.1.map (conceptLines cmn.2.1)).flatten ++
    (mapIdxFrom noteLines 0 res.contextNotes).flatten ++
    res.relationships.map (fun rel =>
      MLine.labeledArrow rel.source ((rel.label).getD "") rel.target) ++
    [.raw "```"]

/-- `generateEducationalConceptMap` of `fixed-conceptMapService.js`: title,
optional summary section, then the serialized Mermaid block. -/
def generateEducationalConceptMapFixed (res : FResult) : String :=
  let cmn := identifyMainConcept res.concepts
  "# Mapa Conceptual: " ++ cmn.2.2 ++ "\n\n" ++
    (if jsSomeStr res.summary then
      "## Resumen\n" ++ (res.summary.getD "") ++ "\n\n"
     else "") ++
    String.join ((mermaidLines res).map renderMLine)

/-- A node id is decorative exactly when it contains an underscore: the fixed
renderer builds every definition/attribute/example/origin/context node id by
appending an underscore-bearing suffix, while pipeline concept ids
(`concept-N`) never contain one. -/
def isDecorId (id : String) : Bool := decide ('_' ∈ id.data)

/-- The number of non-decorative node-declaration lines of a Mermaid line
sequence (what a round-trip parser counts as concept nodes). -/
def mermaidNodeCount (lines : List MLine) : ℕ :=
  (lines.filter (fun l =>
    match l with
    | .nodeDecl i _ => !isDecorId i
    | _ => false)).length

/-- The number of labeled-edge lines of a Mermaid line sequence (what a
round-trip parser counts as relationship edges). -/
def mermaidEdgeCount (lines : List MLine) : ℕ :=
  (lines.filter (fun l =>
    match l with
    | .labeledArrow _ _ _ => true
    | _ => false)).length

/-! ## Specification predicates (the claim statements, as `Prop`s) -/

/-- C5's invariant: every relationship endpoint is the id of a present
concept. -/
def relationshipEndpointsValid (r : Result) : Prop :=
  ∀ rel ∈ r.relationships,
    rel.source ∈ r.concepts.map Concept.id ∧
      rel.target ∈ r.concepts.map Concept.id

/-- C6's truncation contract for `applyLimit`. -/
def truncationSpec (res : Result) (cfg : Config) : Prop :=
  (applyLimit res cfg).concepts =
    (sortDescBy Concept.importance res.concepts).take cfg.maxConcepts ∧
  (applyLimit res cfg).concepts.length = cfg.maxConcepts ∧
  (∀ a ∈ (applyLimit res cfg).concepts,
    ∀ b ∈ (sortDescBy Concept.importance res.concepts).drop cfg.maxConcepts,
      b.importance ≤ a.importance) ∧
  (∀ rel, rel ∈ (applyLimit res cfg).relationships ↔
    rel ∈ res.relationships ∧
      rel.source ∈ (applyLimit res cfg).concepts.map Concept.id ∧
      rel.target ∈ (applyLimit res cfg).concepts.map Concept.id) ∧
  (applyLimit res cfg).metadata.limitationApplied = some
    { conceptsRemoved := res.concepts.length - cfg.maxConcepts
      relationshipsRemoved :=
        res.relationships.length - (applyLimit res cfg).relationships.length }

/-- C9's guarantee on a relationship list: no self-loop and no duplicate
`(source, target, type)` triple. -/
def noSelfLoopNoDupTriple (rels : List Relationship) : Prop :=
  (∀ r ∈ rels, r.source ≠ r.target) ∧
  rels.Pairwise (fun r1 r2 =>
    ¬(r1.source = r2.source ∧ r1.target = r2.target ∧ r1.type = r2.type))

/-- C10's mirror-symmetry contract of the detection step for a pair of
concepts, plus the evenness of the whole edge list that it forces. -/
def mirrorSpec (text : String) (concepts : List Concept) (A B : Concept) :
    Prop :=
  ((∃ r ∈ identifyConceptRelationships text concepts,
      r.source = A.id ∧ r.target = B.id) ↔
   (∃ r ∈ identifyConceptRelationships text concepts,
      r.source = B.id ∧ r.target = A.id)) ∧
  (∀ r ∈ identifyConceptRelationships text concepts,
    ∀ r' ∈ identifyConceptRelationships text concepts,
      r.source = A.id → r.target = B.id → r'.source = B.id → r'.target = A.id →
        r.sharedSentences = r'.sharedSentences ∧ r.strength = r'.strength ∧
          r.strength = min ((r.sharedSentences : ℚ) + 1) 5) ∧
  Even (identifyConceptRelationships text concepts).length

/-- Modelled from the spec (§4.5): the claimed coherence decomposition
`0.5 * connectivity + 0.3 * levelBalance + 0.2 * density`, with the
level-balance and density signals (which the code does not compute) left as
parameters constrained only by the ranges the spec gives them. -/
def specClaimedScore (concepts : List Concept) (rels : List Relationship)
    (levelBalance densityScore : ℚ) : ℚ :=
  1/2 * connectivityRatio concepts rels + 3/10 * levelBalance +
    1/5 * densityScore

/-- C1/C8's zero-concept outcome of a `processText` run: empty graph and the
bare document header as content (there is no placeholder message in the
canonical renderer). -/
def zeroConceptOutcome (text : String) (cfg : Config) (rng : ℕ → Fin 3) :
    Prop :=
  (processText text cfg rng).concepts = [] ∧
  (processText text cfg rng).relationships = [] ∧
  (processText text cfg rng).content = "# Mapa Conceptual\n\n" ∧
  (processText text cfg rng).metadata.conceptCount = 0

/-! ## Concrete inputs used by counterexamples and witnesses -/

/-- A constant oracle for the `Math.random()` draws. -/
def constRng : ℕ → Fin 3 := fun _ => 0

/-- A critical level-0 concept of high importance and frequency 1. -/
def conceptA : Concept :=
  { id := "a", name := "energia", originalForm := "Energia", importance := 6,
    frequency := 1, level := 0, firstOccurrence := 0, isCritical := true }

/-- A non-critical level-2 concept of low importance but frequency 2. -/
def conceptB : Concept :=
  { id := "b", name := "materia", originalForm := "materia", importance := 1,
    frequency := 2, level := 2, firstOccurrence := 10, isCritical := false }

/-- A middle-importance concept. -/
def conceptC : Concept :=
  { id := "c", name := "fuerza", originalForm := "fuerza", importance := 3,
    frequency := 1, level := 1, firstOccurrence := 5, isCritical := false }

/-- A strong edge `a → b`. -/
def relAB : Relationship :=
  { id := "rel-a-b", source := "a", target := "b", type := "causa",
    strength := 5, sharedSentences := 3 }

/-- The mirror strong edge `b → a`. -/
def relBA : Relationship :=
  { id := "rel-b-a", source := "b", target := "a", type := "causa",
    strength := 5, sharedSentences := 3 }

/-- A weak edge `a → c`. -/
def relAC : Relationship :=
  { id := "rel-a-c", source := "a", target := "c", type := "influye en",
    strength := 2, sharedSentences := 1 }

/-- A two-concept graph whose two mirrored strong edges push the code's
coherence score above 1. -/
def pairConcepts : List Concept := [conceptA, conceptB]

/-- The mirrored strong edges over `pairConcepts`. -/
def pairRels : List Relationship := [relAB, relBA]

/-- A three-concept `Result` for exercising the truncation. -/
def resLimit : Result :=
  { concepts := [conceptA, conceptB, conceptC]
    relationships := [relAB, relAC]
    metadata := { textLength := 0, conceptCount := 3, relationshipCount := 2 } }

/-- A configuration with `maxConcepts = 2`. -/
def cfgMax2 : Config := { maxConcepts := 2 }

/-- Concept `gatos` for the detection witnesses. -/
def conceptG : Concept :=
  { id := "g", name := "gatos", originalForm := "gatos", importance := 5,
    frequency := 2, level := 0, firstOccurrence := 0, isCritical := true }

/-- Concept `pescado` for the detection witnesses. -/
def conceptP : Concept :=
  { id := "p", name := "pescado", originalForm := "pescado", importance := 4,
    frequency := 1, level := 1, firstOccurrence := 12, isCritical := true }

/-- A two-sentence text in which `gatos` and `pescado` share one sentence. -/
def textGP : String := "gatos comen pescado. gatos duermen."

/-- A fixed-service `Result` exercising every decorative-node branch of the
Mermaid renderer. -/
def fresExample : FResult :=
  { concepts :=
      [{ id := "concept-0", name := "agua", importance := some 5,
         definition := some "Liquido vital"
         attributes := [{ name := "Ejemplos", subAttributes := ["Mar", "Rio"] }]
         examples := some ["Lluvia"], origin := some "Del latin aqua" },
       { id := "concept-1", name := "fuego", importance := some 3 }]
    relationships :=
      [{ source := "concept-0", target := "concept-1", label := some "apaga" }]
    contextNotes := [{ relatedConceptId := "concept-0", content := "Agua:\n• nota" }]
    summary := some "Resumen breve" }

/-! # Theorems

Helper lemmas first, then one theorem per claim (with its witness or
counterexample where required). -/

/-! ## Stable descending sort -/

theorem insertDesc_perm {α : Type} (key : α → ℚ) (x : α) (l : List α) :
    (insertDesc key x l).Perm (x :: l) := by
  induction l with
  | nil => simp [insertDesc]
  | cons y ys ih =>
    by_cases h : key y ≤ key x
    · simp [insertDesc, h]
    · simp only [insertDesc, if_neg h]
      exact (ih.cons y).trans (List.Perm.swap x y ys)

theorem sortDescBy_perm {α : Type} (key : α → ℚ) (l : List α) :
    (sortDescBy key l).Perm l := by
  induction l with
  | nil => simp [sortDescBy]
  | cons x xs ih =>
    exact (insertDesc_perm key x (sortDescBy key xs)).trans (ih.cons x)

theorem mem_insertDesc {α : Type} {key : α → ℚ} {x z : α} {l : List α} :
    z ∈ insertDesc key x l ↔ z = x ∨ z ∈ l := by
  have h : z ∈ insertDesc key x l ↔ z ∈ x :: l :=
    (insertDesc_perm key x l).mem_iff
  simpa using h

theorem pairwise_insertDesc {α : Type} {key : α → ℚ} {x : α} {l : List α}
    (hl : l.Pairwise (fun a b => key b ≤ key a)) :
    (insertDesc key x l).Pairwise (fun a b => key b ≤ key a) := by
  induction l with
  | nil => simp [insertDesc]
  | cons y ys ih =>
    rcases List.pairwise_cons.1 hl with ⟨hy, hys⟩
    by_cases h : key y ≤ key x
    · simp only [insertDesc, if_pos h]
      refine List.pairwise_cons.2 ⟨?_, hl⟩
      intro z hz
      rcases List.mem_cons.1 hz with rfl | hz
      · exact h
      · exact le_trans (hy z hz) h
    · simp only [insertDesc, if_neg h]
      refine List.pairwise_cons.2 ⟨?_, ih hys⟩
      intro z hz
      rcases mem_insertDesc.1 hz with rfl | hz
      · exact le_of_not_le h
      · exact hy z hz

theorem sortDescBy_sorted {α : Type} (key : α → ℚ) (l : List α) :
    (sortDescBy key l).Pairwise (fun a b => key b ≤ key a) := by
  induction l with
  | nil => simp [sortDescBy]
  | cons x xs ih => exact pairwise_insertDesc ih

theorem sortDescBy_length {α : Type} (key : α → ℚ) (l : List α) :
    (sortDescBy key l).length = l.length :=
  (sortDescBy_perm key l).length_eq

/-! ## C7 — concept filtering during validation -/

/-- C7 (corrected): the canonical `filterIrrelevantConcepts` ignores the mean
importance and the level entirely.  A concept is dropped exactly when its
importance is at most 1.5 **and** its frequency is at most 1 **and** it is
not critical. -/
theorem claim7_filter_drop_rule (concepts : List Concept) (c : Concept)
    (hc : c ∈ concepts) :
    c ∉ filterIrrelevantConcepts concepts ↔
      c.importance ≤ 3/2 ∧ c.frequency ≤ 1 ∧ c.isCritical = false := by
  unfold filterIrrelevantConcepts
  rw [List.mem_filter]
  simp only [hc, true_and, Bool.or_eq_true, decide_eq_true_eq, not_or, not_lt,
    Bool.not_eq_true]
  tauto

/-- Witness for `claim7_filter_drop_rule` at a concrete input: `conceptB`
(importance 1, frequency 2, critical) is a member, and the rule instantiates. -/
theorem claim7_filter_drop_rule_witness :
    conceptB ∈ [conceptA, conceptB] ∧
      (conceptB ∉ filterIrrelevantConcepts [conceptA, conceptB] ↔
        conceptB.importance ≤ 3/2 ∧ conceptB.frequency ≤ 1 ∧
          conceptB.isCritical = false) :=
  ⟨by simp, claim7_filter_drop_rule [conceptA, conceptB] conceptB (by simp)⟩

/-- C7's counterexample: `conceptB` has importance 1, which is below 0.4 times
the mean importance 3.5 of the two concepts, it is not level 0 and not
critical, so the claim predicts it is dropped — yet the code keeps it (its
frequency exceeds 1). -/
theorem claim7_counterexample :
    filterIrrelevantConcepts [conceptA, conceptB] = [conceptA, conceptB] ∧
    conceptB.importance <
      (2/5) * ((conceptA.importance + conceptB.importance) / 2) ∧
    conceptB.level ≠ 0 ∧ conceptB.isCritical = false := by
  refine ⟨?_, ?_, ?_, ?_⟩ <;> with_unfolding_all decide

/-! ## C2 and C3 — the coherence score -/

theorem calculateCoherenceScore_eq (cs : List Concept)
    (rs : List Relationship) :
    calculateCoherenceScore cs rs =
      connectivityRatio cs rs * (2/5) + relationshipDensity cs rs * (3/10) +
        significanceRatio rs * (3/10) := rfl

theorem nodup_subset_length_le {α : Type} [DecidableEq α] {l l' : List α}
    (h : l.Nodup) (hsub : l ⊆ l') : l.length ≤ l'.length := by
  calc l.length = l.toFinset.card := (List.toFinset_card_of_nodup h).symm
    _ ≤ l'.toFinset.card := Finset.card_le_card (fun x hx =>
        List.mem_toFinset.2 (hsub (List.mem_toFinset.1 hx)))
    _ ≤ l'.length := l'.toFinset_card_le

theorem connectivityRatio_nonneg (cs : List Concept) (rs : List Relationship) :
    0 ≤ connectivityRatio cs rs := by
  unfold connectivityRatio
  positivity

theorem connectivityRatio_le_one (cs : List Concept) (rs : List Relationship)
    (hpos : 0 < cs.length)
    (hval : ∀ r ∈ rs, r.source ∈ cs.map Concept.id ∧
      r.target ∈ cs.map Concept.id) :
    connectivityRatio cs rs ≤ 1 := by
  unfold connectivityRatio
  rw [div_le_one (by exact_mod_cast hpos)]
  have hsub : (rs.flatMap (fun r => [r.source, r.target])).dedup ⊆
      cs.map Concept.id := by
    intro x hx
    rcases List.mem_flatMap.1 (List.dedup_subset _ hx) with ⟨r, hr, hxr⟩
    rcases List.mem_cons.1 hxr with rfl | hxr
    · exact (hval r hr).1
    · rcases List.mem_cons.1 hxr with rfl | hxr
      · exact (hval r hr).2
      · cases hxr
  have := nodup_subset_length_le (List.nodup_dedup _) hsub
  calc ((rs.flatMap (fun r => [r.source, r.target])).dedup.length : ℚ)
      ≤ ((cs.map Concept.id).length : ℚ) := by exact_mod_cast this
    _ = (cs.length : ℚ) := by rw [List.length_map]

theorem significanceRatio_nonneg (rs : List Relationship) :
    0 ≤ significanceRatio rs := by
  unfold significanceRatio
  apply div_nonneg (by positivity)
  exact le_trans zero_le_one (le_max_left 1 _)

theorem significanceRatio_le_one (rs : List Relationship) :
    significanceRatio rs ≤ 1 := by
  unfold significanceRatio
  rw [div_le_one (lt_of_lt_of_le zero_lt_one (le_max_left 1 _))]
  calc ((rs.filter (fun rel => rel.strength > 3)).length : ℚ)
      ≤ (rs.length : ℚ) := by exact_mod_cast List.length_filter_le _ rs
    _ ≤ max 1 (rs.length : ℚ) := le_max_right 1 _

theorem relationshipDensity_nonneg (cs : List Concept)
    (rs : List Relationship) (h2 : 2 ≤ cs.length) :
    0 ≤ relationshipDensity cs rs := by
  unfold relationshipDensity
  have hden : (0 : ℚ) < (cs.length : ℚ) * ((cs.length : ℚ) - 1) / 2 := by
    have h2q : (2 : ℚ) ≤ (cs.length : ℚ) := by exact_mod_cast h2
    have : (0 : ℚ) < (cs.length : ℚ) * ((cs.length : ℚ) - 1) := by nlinarith
    linarith
  positivity

theorem edge_count_le (cs : List Concept) (rs : List Relationship)
    (hids : (cs.map Concept.id).Nodup)
    (hval : ∀ r ∈ rs, r.source ∈ cs.map Concept.id ∧
      r.target ∈ cs.map Concept.id)
    (hself : ∀ r ∈ rs, r.source ≠ r.target)
    (hpair : rs.Pairwise (fun r1 r2 =>
      ¬(r1.source = r2.source ∧ r1.target = r2.target))) :
    rs.length ≤ cs.length * cs.length - cs.length := by
  classical
  have hnodup : (rs.map (fun r => (r.source, r.target))).Nodup := by
    refine List.pairwise_map.mpr (hpair.imp ?_)
    intro a b h
    simpa [Prod.ext_iff] using h
  have hsubset : ∀ x ∈ rs.map (fun r => (r.source, r.target)),
      x ∈ ((cs.map Concept.id).toFinset).offDiag := by
    intro x hx
    rcases List.mem_map.1 hx with ⟨r, hr, rfl⟩
    exact Finset.mem_offDiag.2
      ⟨List.mem_toFinset.2 (hval r hr).1, List.mem_toFinset.2 (hval r hr).2,
        hself r hr⟩
  have hcard : (rs.map (fun r => (r.source, r.target))).length ≤
      ((cs.map Concept.id).toFinset).offDiag.card := by
    rw [← List.toFinset_card_of_nodup hnodup]
    exact Finset.card_le_card (fun x hx => hsubset x (List.mem_toFinset.1 hx))
  have hS : ((cs.map Concept.id).toFinset).card = cs.length := by
    rw [List.toFinset_card_of_nodup hids, List.length_map]
  calc rs.length = (rs.map (fun r => (r.source, r.target))).length :=
        (List.length_map _ _).symm
    _ ≤ ((cs.map Concept.id).toFinset).offDiag.card := hcard
    _ = cs.length * cs.length - cs.length := by rw [Finset.offDiag_card, hS]

theorem relationshipDensity_le_two (cs : List Concept) (rs : List Relationship)
    (h2 : 2 ≤ cs.length)
    (hids : (cs.map Concept.id).Nodup)
    (hval : ∀ r ∈ rs, r.source ∈ cs.map Concept.id ∧
      r.target ∈ cs.map Concept.id)
    (hself : ∀ r ∈ rs, r.source ≠ r.target)
    (hpair : rs.Pairwise (fun r1 r2 =>
      ¬(r1.source = r2.source ∧ r1.target = r2.target))) :
    relationshipDensity cs rs ≤ 2 := by
  unfold relationshipDensity
  have h2q : (2 : ℚ) ≤ (cs.length : ℚ) := by exact_mod_cast h2
  have hden : (0 : ℚ) < (cs.length : ℚ) * ((cs.length : ℚ) - 1) / 2 := by
    nlinarith
  rw [div_le_iff₀ hden]
  have hn := edge_count_le cs rs hids hval hself hpair
  have hsub : cs.length ≤ cs.length * cs.length :=
    Nat.le_mul_of_pos_left _ (by omega)
  have hle : (rs.length : ℚ) ≤
      (cs.length : ℚ) * (cs.length : ℚ) - (cs.length : ℚ) := by
    calc (rs.length : ℚ) ≤ ((cs.length * cs.length - cs.length : ℕ) : ℚ) := by
          exact_mod_cast hn
      _ = (cs.length : ℚ) * (cs.length : ℚ) - (cs.length : ℚ) := by
          push_cast [Nat.cast_sub hsub]
          ring
  nlinarith

/-- C2 (corrected): on a well-formed graph (at least two concepts with
distinct ids, valid endpoints, no self-loops, no duplicated ordered pair) the
canonical coherence score lies in `[0, 1.3]` — the upper bound `1.3`, not `1`,
because the engine emits both directions of every co-occurrence, so the
density signal alone can reach 2. -/
theorem claim2_score_bounds (cs : List Concept) (rs : List Relationship)
    (hids : (cs.map Concept.id).Nodup) (h2 : 2 ≤ cs.length)
    (hval : ∀ r ∈ rs, r.source ∈ cs.map Concept.id ∧
      r.target ∈ cs.map Concept.id)
    (hself : ∀ r ∈ rs, r.source ≠ r.target)
    (hpair : rs.Pairwise (fun r1 r2 =>
      ¬(r1.source = r2.source ∧ r1.target = r2.target))) :
    0 ≤ calculateCoherenceScore cs rs ∧
      calculateCoherenceScore cs rs ≤ 13/10 := by
  rw [calculateCoherenceScore_eq]
  have c1 := connectivityRatio_nonneg cs rs
  have c2 := connectivityRatio_le_one cs rs (by omega) hval
  have d1 := relationshipDensity_nonneg cs rs h2
  have d2 := relationshipDensity_le_two cs rs h2 hids hval hself hpair
  have s1 := significanceRatio_nonneg rs
  have s2 := significanceRatio_le_one rs
  constructor <;> linarith

/-- Witness for `claim2_score_bounds`: the two-concept graph with mirrored
strong edges satisfies every hypothesis, and its score is bounded. -/
theorem claim2_score_bounds_witness :
    ((pairConcepts.map Concept.id).Nodup ∧ 2 ≤ pairConcepts.length ∧
      (∀ r ∈ pairRels, r.source ∈ pairConcepts.map Concept.id ∧
        r.target ∈ pairConcepts.map Concept.id) ∧
      (∀ r ∈ pairRels, r.source ≠ r.target) ∧
      pairRels.Pairwise (fun r1 r2 =>
        ¬(r1.source = r2.source ∧ r1.target = r2.target))) ∧
    (0 ≤ calculateCoherenceScore pairConcepts pairRels ∧
      calculateCoherenceScore pairConcepts pairRels ≤ 13/10) :=
  ⟨by decide,
   claim2_score_bounds pairConcepts pairRels (by decide) (by decide)
     (by decide) (by decide) (by decide)⟩

/-- C2's counterexample: the mirrored strong edges over two concepts give the
score 1.3, which is not in `[0, 1]`. -/
theorem claim2_counterexample :
    calculateCoherenceScore pairConcepts pairRels = 13/10 ∧
      ¬ calculateCoherenceScore pairConcepts pairRels ≤ 1 := by
  refine ⟨?_, ?_⟩ <;> with_unfolding_all decide

/-- C3 (corrected): the score `step4_VerifyAndValidate` stores is the
two-decimal rounding of `0.4 * connectivity + 0.3 * relationshipDensity +
0.3 * significanceRatio` over the validated graph — not the spec's
`0.5 * connectivity + 0.3 * levelBalance + 0.2 * density`. -/
theorem claim3_score_decomposition (res : Result) :
    (step4_VerifyAndValidate res).metadata.coherenceScore =
      some (round2
        (connectivityRatio
            (removeRedundantConcepts (filterIrrelevantConcepts res.concepts))
            (validateRelationshipCoherence res.relationships
              (removeRedundantConcepts (filterIrrelevantConcepts res.concepts)))
          * (2/5) +
         relationshipDensity
            (removeRedundantConcepts (filterIrrelevantConcepts res.concepts))
            (validateRelationshipCoherence res.relationships
              (removeRedundantConcepts (filterIrrelevantConcepts res.concepts)))
          * (3/10) +
         significanceRatio
            (validateRelationshipCoherence res.relationships
              (removeRedundantConcepts (filterIrrelevantConcepts res.concepts)))
          * (3/10))) := by
  rw [← calculateCoherenceScore_eq]
  unfold step4_VerifyAndValidate
  dsimp only
  split <;> rfl

/-- C3's counterexample: at the mirrored-pair graph the code's score is 1.3
while the claimed decomposition cannot exceed 1 for any admissible
level-balance (`≤ 1`) and density (`≤ 1`) scores, since the connectivity
ratio there is exactly 1. -/
theorem claim3_counterexample :
    calculateCoherenceScore pairConcepts pairRels = 13/10 ∧
    connectivityRatio pairConcepts pairRels = 1 ∧
    ∀ levelBalance densityScore : ℚ, levelBalance ≤ 1 → densityScore ≤ 1 →
      specClaimedScore pairConcepts pairRels levelBalance densityScore <
        calculateCoherenceScore pairConcepts pairRels := by
  have h1 : calculateCoherenceScore pairConcepts pairRels = 13/10 := by
    with_unfolding_all decide
  have h2 : connectivityRatio pairConcepts pairRels = 1 := by
    with_unfolding_all decide
  refine ⟨h1, h2, ?_⟩
  intro lb ds hlb hds
  unfold specClaimedScore
  rw [h1, h2]
  linarith

/-! ## C6 — `maxConcepts` truncation -/

/-- C6 (confirmed): when the concept count exceeds `maxConcepts`, the
truncation keeps exactly the first `maxConcepts` concepts of the stable
importance-descending order (every kept importance is at least every dropped
importance), keeps exactly the relationships whose two endpoints survive, and
records both removed counts in `metadata.limitationApplied`.  The function is
total, so no error can be raised. -/
theorem claim6_truncation (res : Result) (cfg : Config)
    (h : res.concepts.length > cfg.maxConcepts) : truncationSpec res cfg := by
  unfold truncationSpec applyLimit
  dsimp only
  refine ⟨rfl, ?_, ?_, ?_, ?_⟩
  · rw [List.length_take, sortDescBy_length]
    omega
  · intro a ha b hb
    have hp := sortDescBy_sorted Concept.importance res.concepts
    rw [← List.take_append_drop cfg.maxConcepts
      (sortDescBy Concept.importance res.concepts)] at hp
    exact (List.pairwise_append.1 hp).2.2 a ha b hb
  · intro rel
    simp only [List.mem_filter, Bool.and_eq_true]
    constructor
    · rintro ⟨hm, hs, ht⟩
      exact ⟨hm, by simpa using hs, by simpa using ht⟩
    · rintro ⟨hm, hs, ht⟩
      exact ⟨hm, by simpa using hs, by simpa using ht⟩
  · simp only [sortDescBy_length]

/-- Witness for `claim6_truncation`: three concepts, `maxConcepts = 2`. -/
theorem claim6_truncation_witness :
    resLimit.concepts.length > cfgMax2.maxConcepts ∧
      truncationSpec resLimit cfgMax2 :=
  ⟨by decide, claim6_truncation resLimit cfgMax2 (by decide)⟩

/-! ## C4 — round-trip counting of the emitted diagram source -/

theorem mermaidNodeCount_append (l1 l2 : List MLine) :
    mermaidNodeCount (l1 ++ l2) = mermaidNodeCount l1 + mermaidNodeCount l2 := by
  simp [mermaidNodeCount, List.filter_append]

theorem mermaidEdgeCount_append (l1 l2 : List MLine) :
    mermaidEdgeCount (l1 ++ l2) = mermaidEdgeCount l1 + mermaidEdgeCount l2 := by
  simp [mermaidEdgeCount, List.filter_append]

theorem isDecorId_append (a b : String) :
    isDecorId (a ++ b) = (isDecorId a || isDecorId b) := by
  by_cases h1 : '_' ∈ a.data <;> by_cases h2 : '_' ∈ b.data <;>
    simp [isDecorId, String.data_append, h1, h2]

theorem mermaidNodeCount_mapIdxFrom_zero {α : Type} (g : ℕ → α → List MLine)
    (h : ∀ i a, mermaidNodeCount (g i a) = 0) :
    ∀ i (l : List α), mermaidNodeCount (mapIdxFrom g i l).flatten = 0 := by
  intro i l
  induction l generalizing i with
  | nil => simp [mapIdxFrom, mermaidNodeCount]
  | cons a as ih =>
    simp only [mapIdxFrom, List.flatten_cons, mermaidNodeCount_append, h, ih,
      Nat.add_zero]

theorem mermaidEdgeCount_mapIdxFrom_zero {α : Type} (g : ℕ → α → List MLine)
    (h : ∀ i a, mermaidEdgeCount (g i a) = 0) :
    ∀ i (l : List α), mermaidEdgeCount (mapIdxFrom g i l).flatten = 0 := by
  intro i l
  induction l generalizing i with
  | nil => simp [mapIdxFrom, mermaidEdgeCount]
  | cons a as ih =>
    simp only [mapIdxFrom, List.flatten_cons, mermaidEdgeCount_append, h, ih,
      Nat.add_zero]

theorem mermaidNodeCount_attrLines (cid : String) (i : ℕ) (attr : FAttribute) :
    mermaidNodeCount (attrLines cid i attr) = 0 := by
  unfold attrLines
  rw [mermaidNodeCount_append]
  have hattr : isDecorId (cid ++ "_attr_" ++ toString i) = true := by
    rw [isDecorId_append, isDecorId_append]
    simp [show isDecorId "_attr_" = true by decide]
  rw [mermaidNodeCount_mapIdxFrom_zero]
  · simp [mermaidNodeCount, hattr]
  · intro j s
    have : isDecorId (cid ++ "_attr_" ++ toString i ++ "_sub_" ++ toString j)
        = true := by
      rw [isDecorId_append, isDecorId_append]
      simp [show isDecorId "_sub_" = true by decide]
    simp [mermaidNodeCount, this]

theorem mermaidNodeCount_conceptLines (mainId : String) (c : FConcept)
    (hc : isDecorId c.id = false) :
    mermaidNodeCount (conceptLines mainId c) = 1 := by
  have hdef : isDecorId (c.id ++ "_def") = true := by
    rw [isDecorId_append]
    simp [show isDecorId "_def" = true by decide]
  have hex : isDecorId (c.id ++ "_examples") = true := by
    rw [isDecorId_append]
    simp [show isDecorId "_examples" = true by decide]
  have hor : isDecorId (c.id ++ "_origin") = true := by
    rw [isDecorId_append]
    simp [show isDecorId "_origin" = true by decide]
  have hattr0 : mermaidNodeCount
      ((mapIdxFrom (attrLines c.id) 0 c.attributes).flatten) = 0 :=
    mermaidNodeCount_mapIdxFrom_zero _ (mermaidNodeCount_attrLines c.id) 0 _
  unfold conceptLines
  simp only [mermaidNodeCount_append]
  repeat' split
  all_goals try rw [hattr0]
  all_goals simp [mermaidNodeCount, hc, hdef, hex, hor]

theorem mermaidEdgeCount_conceptLines (mainId : String) (c : FConcept) :
    mermaidEdgeCount (conceptLines mainId c) = 0 := by
  have hattrE0 : mermaidEdgeCount
      ((mapIdxFrom (attrLines c.id) 0 c.attributes).flatten) = 0 := by
    refine mermaidEdgeCount_mapIdxFrom_zero _ ?_ 0 _
    intro i a
    unfold attrLines
    rw [mermaidEdgeCount_append, mermaidEdgeCount_mapIdxFrom_zero]
    · simp [mermaidEdgeCount]
    · intro j s
      simp [mermaidEdgeCount]
  unfold conceptLines
  simp only [mermaidEdgeCount_append]
  repeat' split
  all_goals try rw [hattrE0]
  all_goals simp [mermaidEdgeCount]

theorem identifyMainConcept_fst_perm (cs : List FConcept) :
    (identifyMainConcept cs).1.Perm cs := by
  unfold identifyMainConcept
  cases h : cs.find? (fun c => c.isMainConcept) with
  | some m => exact List.Perm.refl cs
  | none =>
    dsimp only
    have hperm := sortDescBy_perm (fun c : FConcept => (c.importance).getD 0) cs
    split <;> exact hperm

theorem mermaidNodeCount_concepts (mainId : String) (l : List FConcept)
    (h : ∀ c ∈ l, isDecorId c.id = false) :
    mermaidNodeCount ((l.map (conceptLines mainId)).flatten) = l.length := by
  induction l with
  | nil => simp [mermaidNodeCount]
  | cons c cs ih =>
    simp only [List.map_cons, List.flatten_cons, mermaidNodeCount_append,
      List.length_cons]
    rw [mermaidNodeCount_conceptLines mainId c (h c (List.mem_cons_self c cs)),
      ih (fun x hx => h x (List.mem_cons_of_mem c hx))]
    omega

theorem mermaidEdgeCount_concepts (mainId : String) (l : List FConcept) :
    mermaidEdgeCount ((l.map (conceptLines mainId)).flatten) = 0 := by
  induction l with
  | nil => simp [mermaidEdgeCount]
  | cons c cs ih =>
    simp only [List.map_cons, List.flatten_cons, mermaidEdgeCount_append]
    rw [mermaidEdgeCount_conceptLines, ih]

theorem mermaidCounts_relLines (rels : List FRel) :
    mermaidNodeCount (rels.map (fun rel =>
        MLine.labeledArrow rel.source ((rel.label).getD "") rel.target)) = 0 ∧
    mermaidEdgeCount (rels.map (fun rel =>
        MLine.labeledArrow rel.source ((rel.label).getD "") rel.target)) =
      rels.length := by
  induction rels with
  | nil => simp [mermaidNodeCount, mermaidEdgeCount]
  | cons r rs ih =>
    simp only [List.map_cons, List.length_cons]
    constructor
    · simp only [mermaidNodeCount, List.filter_cons] at ih ⊢
      exact ih.1
    · have := ih.2
      simp only [mermaidEdgeCount, List.filter_cons] at this ⊢
      simp [this]

/-- C4 (corrected, for the fixed service's Mermaid renderer): the emitted line
sequence contains exactly one non-decorative node-declaration line per concept
(decorative definition/attribute/example/origin/context nodes, whose generated
ids always carry an underscore, are excluded from the count) and exactly one
labeled-edge line per relationship, so a round-trip parse of the diagram
source recovers `concepts.length` and `relationships.length`. -/
theorem claim4_fixed_roundtrip (res : FResult)
    (h : ∀ c ∈ res.concepts, isDecorId c.id = false) :
    mermaidNodeCount (mermaidLines res) = res.concepts.length ∧
      mermaidEdgeCount (mermaidLines res) = res.relationships.length := by
  unfold mermaidLines
  have hperm := identifyMainConcept_fst_perm res.concepts
  have hmem : ∀ c ∈ (identifyMainConcept res.concepts).1,
      isDecorId c.id = false := fun c hc => h c (hperm.mem_iff.1 hc)
  have hlen : (identifyMainConcept res.concepts).1.length =
      res.concepts.length := hperm.length_eq
  have hnote : ∀ i n, mermaidNodeCount (noteLines i n) = 0 := by
    intro i n
    have : isDecorId ("context_" ++ toString i) = true := by
      rw [isDecorId_append]
      simp [show isDecorId "context_" = true by decide]
    simp [noteLines, mermaidNodeCount, this]
  have hnoteE : ∀ i n, mermaidEdgeCount (noteLines i n) = 0 := by
    intro i n
    simp [noteLines, mermaidEdgeCount]
  constructor
  · simp only [mermaidNodeCount_append]
    rw [mermaidNodeCount_concepts _ _ hmem, hlen,
      mermaidNodeCount_mapIdxFrom_zero _ hnote, (mermaidCounts_relLines _).1]
    simp [mermaidHeader, mermaidNodeCount]
  · simp only [mermaidEdgeCount_append]
    rw [mermaidEdgeCount_concepts,
      mermaidEdgeCount_mapIdxFrom_zero _ hnoteE, (mermaidCounts_relLines _).2]
    simp [mermaidHeader, mermaidEdgeCount]

/-- Witness for `claim4_fixed_roundtrip`: a two-concept, one-edge fixed
`Result` exercising every decorative branch. -/
theorem claim4_fixed_roundtrip_witness :
    (∀ c ∈ fresExample.concepts, isDecorId c.id = false) ∧
      (mermaidNodeCount (mermaidLines fresExample) =
          fresExample.concepts.length ∧
        mermaidEdgeCount (mermaidLines fresExample) =
          fresExample.relationships.length) :=
  ⟨by decide, claim4_fixed_roundtrip fresExample (by decide)⟩

/-- C4's counterexample: the canonical service's renderer (the one
`processText` uses) emits a Markdown outline with **no** node-declaration
lines at all, so parsing its content back yields 0 nodes against 1 concept. -/
theorem claim4_counterexample :
    nodeDeclLineCount (processText "hola hola." defaultConfig constRng).content
        = 0 ∧
      (processText "hola hola." defaultConfig constRng).concepts.length = 1 := by
  refine ⟨?_, ?_⟩ <;> with_unfolding_all decide

/-! ## C9 and C10 — the relationship engine -/

theorem mem_mapIdxFrom {α β : Type} {f : ℕ → α → β} {y : β} :
    ∀ {i : ℕ} {l : List α}, y ∈ mapIdxFrom f i l → ∃ j a, a ∈ l ∧ y = f j a := by
  intro i l
  induction l generalizing i with
  | nil => simp [mapIdxFrom]
  | cons a as ih =>
    simp only [mapIdxFrom, List.mem_cons]
    rintro (rfl | hy)
    · exact ⟨i, a, Or.inl rfl, rfl⟩
    · rcases ih hy with ⟨j, b, hb, rfl⟩
      exact ⟨j, b, Or.inr hb, rfl⟩

theorem mapIdxFrom_pairwise {α β : Type} {f : ℕ → α → β}
    {R : β → β → Prop} {S : α → α → Prop}
    (h : ∀ i j a b, S a b → R (f i a) (f j b)) :
    ∀ {i : ℕ} {l : List α}, l.Pairwise S → (mapIdxFrom f i l).Pairwise R := by
  intro i l hl
  induction l generalizing i with
  | nil => simp [mapIdxFrom]
  | cons a as ih =>
    rcases List.pairwise_cons.1 hl with ⟨ha, has⟩
    refine List.pairwise_cons.2 ⟨?_, ih has⟩
    intro y hy
    rcases mem_mapIdxFrom hy with ⟨j, b, hb, rfl⟩
    exact h _ _ _ _ (ha b hb)

theorem pairwise_flatMap {α β : Type} {R : β → β → Prop} {f : α → List β} :
    ∀ {l : List α}, (∀ a ∈ l, (f a).Pairwise R) →
      l.Pairwise (fun a b => ∀ x ∈ f a, ∀ y ∈ f b, R x y) →
      (l.flatMap f).Pairwise R := by
  intro l
  induction l with
  | nil => simp
  | cons a as ih =>
    intro hin hcross
    rcases List.pairwise_cons.1 hcross with ⟨ha, has⟩
    rw [List.flatMap_cons]
    apply List.pairwise_append.2
    refine ⟨hin a (List.mem_cons_self a as), ih (fun b hb =>
      hin b (List.mem_cons_of_mem a hb)) has, ?_⟩
    intro x hx y hy
    rcases List.mem_flatMap.1 hy with ⟨b, hb, hyb⟩
    exact ha b hb x hx y hyb

theorem pairwise_filterMap {α β : Type} {R : β → β → Prop} {f : α → Option β} :
    ∀ {l : List α},
      l.Pairwise (fun a b => ∀ x, f a = some x → ∀ y, f b = some y → R x y) →
      (l.filterMap f).Pairwise R := by
  intro l
  induction l with
  | nil => simp
  | cons a as ih =>
    intro h
    rcases List.pairwise_cons.1 h with ⟨ha, has⟩
    rw [List.filterMap_cons]
    cases hfa : f a with
    | none => exact ih has
    | some x =>
      refine List.pairwise_cons.2 ⟨?_, ih has⟩
      intro y hy
      rcases List.mem_filterMap.1 hy with ⟨b, hb, hfb⟩
      exact ha b hb x hfa y hfb

/-- The shared-sentence count is symmetric in the two concepts. -/
theorem sharedCount_comm (sentences : List String) (s t : Concept) :
    sharedCount sentences s t = sharedCount sentences t s := by
  unfold sharedCount
  rw [List.filter_filter, List.filter_filter]
  have : (fun a => containsLower a t.name && containsLower a s.name) =
      (fun a => containsLower a s.name && containsLower a t.name) := by
    funext x
    exact Bool.and_comm _ _
  rw [this]

/-- The membership characterization of the detection step: a relationship is
emitted exactly for the ordered pairs of listed concepts with distinct ids
sharing at least one sentence, and its fields are determined by the pair. -/
theorem mem_identify {text : String} {cs : List Concept} {r : Relationship} :
    r ∈ identifyConceptRelationships text cs ↔
      ∃ s ∈ cs, ∃ t ∈ cs, s.id ≠ t.id ∧
        0 < sharedCount (jsSentences text) s t ∧
        r = { id := "rel-" ++ s.id ++ "-" ++ t.id, source := s.id,
              target := t.id, type := "relacionado con",
              strength := min ((sharedCount (jsSentences text) s t : ℚ) + 1) 5,
              sharedSentences := sharedCount (jsSentences text) s t } := by
  unfold identifyConceptRelationships
  rw [List.mem_flatMap]
  constructor
  · rintro ⟨s, hs, hr⟩
    rcases List.mem_filterMap.1 hr with ⟨t, ht, hft⟩
    by_cases h1 : s.id = t.id
    · rw [if_pos h1] at hft
      cases hft
    · rw [if_neg h1] at hft
      by_cases h2 : 0 < sharedCount (jsSentences text) s t
      · rw [if_pos h2] at hft
        exact ⟨s, hs, t, ht, h1, h2, (Option.some.inj hft).symm⟩
      · rw [if_neg h2] at hft
        cases hft
  · rintro ⟨s, hs, t, ht, h1, h2, rfl⟩
    refine ⟨s, hs, List.mem_filterMap.2 ⟨t, ht, ?_⟩⟩
    rw [if_neg h1, if_pos h2]

/-- Ids are injective on a concept list whose mapped ids are `Nodup`. -/
theorem id_inj_of_nodup {cs : List Concept}
    (hids : (cs.map Concept.id).Nodup) {a b : Concept}
    (ha : a ∈ cs) (hb : b ∈ cs) (hab : a.id = b.id) : a = b := by
  exact List.inj_on_of_nodup_map hids ha hb hab

theorem identify_pairs_pairwise {text : String} {cs : List Concept}
    (hids : (cs.map Concept.id).Nodup) :
    (identifyConceptRelationships text cs).Pairwise
      (fun r1 r2 => ¬(r1.source = r2.source ∧ r1.target = r2.target)) := by
  have hpw : cs.Pairwise (fun a b => a.id ≠ b.id) := List.pairwise_map.1 hids
  unfold identifyConceptRelationships
  apply pairwise_flatMap
  · intro s hs
    apply pairwise_filterMap
    refine hpw.imp_of_mem ?_
    intro t1 t2 ht1 ht2 hne x hx y hy
    by_cases h1 : s.id = t1.id
    · rw [if_pos h1] at hx; cases hx
    · rw [if_neg h1] at hx
      by_cases h1' : 0 < sharedCount (jsSentences text) s t1
      · rw [if_pos h1'] at hx
        by_cases h2 : s.id = t2.id
        · rw [if_pos h2] at hy; cases hy
        · rw [if_neg h2] at hy
          by_cases h2' : 0 < sharedCount (jsSentences text) s t2
          · rw [if_pos h2'] at hy
            cases Option.some.inj hx
            cases Option.some.inj hy
            rintro ⟨-, htgt⟩
            exact hne htgt
          · rw [if_neg h2'] at hy; cases hy
      · rw [if_neg h1'] at hx; cases hx
  · refine hpw.imp_of_mem ?_
    intro s1 s2 hs1 hs2 hne x hx y hy
    rcases List.mem_filterMap.1 hx with ⟨t1, -, hf1⟩
    rcases List.mem_filterMap.1 hy with ⟨t2, -, hf2⟩
    by_cases h1 : s1.id = t1.id
    · rw [if_pos h1] at hf1; cases hf1
    · rw [if_neg h1] at hf1
      by_cases h1' : 0 < sharedCount (jsSentences text) s1 t1
      · rw [if_pos h1'] at hf1
        by_cases h2 : s2.id = t2.id
        · rw [if_pos h2] at hf2; cases hf2
        · rw [if_neg h2] at hf2
          by_cases h2' : 0 < sharedCount (jsSentences text) s2 t2
          · rw [if_pos h2'] at hf2
            cases Option.some.inj hf1
            cases Option.some.inj hf2
            rintro ⟨hsrc, -⟩
            exact hne hsrc
          · rw [if_neg h2'] at hf2; cases hf2
      · rw [if_neg h1'] at hf1; cases hf1

/-- C9 (confirmed): for every text, oracle and concept list with distinct ids,
the engine's final relationship list (detection, classification, weighting)
has no self-loop and no duplicated `(source, target, type)` triple. -/
theorem claim9_engine_invariants (text : String) (cs : List Concept)
    (rng : ℕ → Fin 3) (hids : (cs.map Concept.id).Nodup) :
    noSelfLoopNoDupTriple
      (assignRelationshipStrength (classifyRelationshipTypes rng
        (identifyConceptRelationships text cs))) := by
  constructor
  · intro r hr
    rcases List.mem_map.1 hr with ⟨r1, hr1, rfl⟩
    rcases mem_mapIdxFrom hr1 with ⟨j, r0, hr0, rfl⟩
    rcases mem_identify.1 hr0 with ⟨s, -, t, -, hne, -, rfl⟩
    exact hne
  · have hpairs : (identifyConceptRelationships text cs).Pairwise
        (fun r1 r2 => ¬(r1.source = r2.source ∧ r1.target = r2.target)) :=
      identify_pairs_pairwise hids
    have h1 : (classifyRelationshipTypes rng
        (identifyConceptRelationships text cs)).Pairwise
        (fun r1 r2 => ¬(r1.source = r2.source ∧ r1.target = r2.target)) := by
      unfold classifyRelationshipTypes
      refine mapIdxFrom_pairwise ?_ hpairs
      intro i j a b h
      exact h
    unfold assignRelationshipStrength
    rw [List.pairwise_map]
    exact h1.imp (fun h => by
      rintro ⟨hs, ht, -⟩
      exact h ⟨hs, ht⟩)

/-- Witness for `claim9_engine_invariants` at a concrete text and concept
pair. -/
theorem claim9_engine_invariants_witness :
    (([conceptG, conceptP].map Concept.id).Nodup) ∧
      noSelfLoopNoDupTriple
        (assignRelationshipStrength (classifyRelationshipTypes constRng
          (identifyConceptRelationships textGP [conceptG, conceptP]))) :=
  ⟨by decide, claim9_engine_invariants textGP [conceptG, conceptP] constRng
    (by decide)⟩

theorem map_congr_mem {α β : Type} {f g : α → β} :
    ∀ {l : List α}, (∀ a ∈ l, f a = g a) → l.map f = l.map g := by
  intro l
  induction l with
  | nil => simp
  | cons a as ih =>
    intro h
    simp only [List.map_cons]
    rw [h a (List.mem_cons_self a as), ih (fun b hb =>
      h b (List.mem_cons_of_mem a hb))]

theorem length_flatMap {α β : Type} (f : α → List β) (l : List α) :
    (l.flatMap f).length = (l.map (fun a => (f a).length)).sum := by
  induction l with
  | nil => simp
  | cons a as ih => simp [List.flatMap_cons, ih]

theorem length_filterMap_eq_sum {α β : Type} (f : α → Option β) (l : List α) :
    (l.filterMap f).length =
      (l.map (fun a => if (f a).isSome then 1 else 0)).sum := by
  induction l with
  | nil => simp
  | cons a as ih =>
    rw [List.filterMap_cons]
    cases hfa : f a
    · simp [hfa, ih]
    · simp [hfa, ih]
      omega

theorem sum_map_add {α : Type} (g h : α → ℕ) (l : List α) :
    (l.map (fun a => g a + h a)).sum = (l.map g).sum + (l.map h).sum := by
  induction l with
  | nil => simp
  | cons a as ih =>
    simp only [List.map_cons, List.sum_cons, ih]
    omega

theorem even_double_sum {α : Type} (e : α → α → ℕ) (hdiag : ∀ a, e a a = 0)
    (hsymm : ∀ a b, e a b = e b a) :
    ∀ l : List α, Even ((l.map (fun s => (l.map (e s)).sum)).sum) := by
  intro l
  induction l with
  | nil => simp
  | cons x xs ih =>
    simp only [List.map_cons, List.sum_cons, hdiag, Nat.zero_add]
    rw [sum_map_add]
    have hsx : xs.map (fun s => e s x) = xs.map (e x) :=
      map_congr_mem (fun s _ => hsymm s x)
    rw [hsx]
    obtain ⟨k, hk⟩ := ih
    exact ⟨(xs.map (e x)).sum + k, by omega⟩

theorem identify_length (text : String) (cs : List Concept) :
    (identifyConceptRelationships text cs).length =
      (cs.map (fun s => (cs.map (fun t =>
        if s.id ≠ t.id ∧ 0 < sharedCount (jsSentences text) s t then 1 else 0)).sum)).sum := by
  unfold identifyConceptRelationships
  rw [length_flatMap]
  refine congrArg List.sum (map_congr_mem ?_)
  intro s _
  rw [length_filterMap_eq_sum]
  refine congrArg List.sum (map_congr_mem ?_)
  intro t _
  by_cases h1 : s.id = t.id
  · simp [h1]
  · by_cases h2 : 0 < sharedCount (jsSentences text) s t
    · simp [h1, h2]
    · simp [h1, h2]

/-- C10 (confirmed): co-occurrence detection is mirror-symmetric — an edge
`A → B` is emitted iff `B → A` is, both carry the same `sharedSentences` count
and the same initial `strength = min(shared + 1, 5)`, and the whole emitted
list has even length (one symmetric pair per unordered pair). -/
theorem claim10_mirror_symmetry (text : String) (cs : List Concept)
    (A B : Concept) (hids : (cs.map Concept.id).Nodup)
    (hA : A ∈ cs) (hB : B ∈ cs) (hAB : A.id ≠ B.id) :
    mirrorSpec text cs A B := by
  have key : ∀ X Y : Concept, X ∈ cs → Y ∈ cs → X.id ≠ Y.id →
      (∃ r ∈ identifyConceptRelationships text cs,
        r.source = X.id ∧ r.target = Y.id) →
      ∃ r ∈ identifyConceptRelationships text cs,
        r.source = Y.id ∧ r.target = X.id := by
    rintro X Y hX hY hXY ⟨r, hr, hsrc, htgt⟩
    rcases mem_identify.1 hr with ⟨s, hs, t, ht, hne, hpos, rfl⟩
    have hsX : s = X := id_inj_of_nodup hids hs hX hsrc
    have htY : t = Y := id_inj_of_nodup hids ht hY htgt
    have hpos2 : 0 < sharedCount (jsSentences text) X Y := by
      rwa [hsX, htY] at hpos
    have hpos' : 0 < sharedCount (jsSentences text) Y X := by
      rwa [sharedCount_comm]
    exact ⟨_, mem_identify.2 ⟨Y, hY, X, hX, hXY.symm, hpos', rfl⟩, rfl, rfl⟩
  refine ⟨⟨key A B hA hB hAB, key B A hB hA hAB.symm⟩, ?_, ?_⟩
  · intro r hr r' hr' h1 h2 h3 h4
    rcases mem_identify.1 hr with ⟨s, hs, t, ht, hne, hpos, rfl⟩
    rcases mem_identify.1 hr' with ⟨s', hs', t', ht', hne', hpos', rfl⟩
    have hsA : s = A := id_inj_of_nodup hids hs hA h1
    have htB : t = B := id_inj_of_nodup hids ht hB h2
    have hsB : s' = B := id_inj_of_nodup hids hs' hB h3
    have htA : t' = A := id_inj_of_nodup hids ht' hA h4
    refine ⟨?_, ?_, rfl⟩
    · show sharedCount (jsSentences text) s t = sharedCount (jsSentences text) s' t'
      rw [hsA, htB, hsB, htA]
      exact sharedCount_comm (jsSentences text) A B
    · show min ((sharedCount (jsSentences text) s t : ℚ) + 1) 5 =
        min ((sharedCount (jsSentences text) s' t' : ℚ) + 1) 5
      rw [hsA, htB, hsB, htA, sharedCount_comm (jsSentences text) A B]
  · rw [identify_length]
    refine even_double_sum _ (fun a => by simp) ?_ cs
    intro a b
    by_cases h1 : a.id = b.id
    · simp [h1]
    · by_cases h2 : 0 < sharedCount (jsSentences text) a b
      · have h2' : 0 < sharedCount (jsSentences text) b a := by
          rwa [sharedCount_comm]
        simp [h1, Ne.symm h1, h2, h2']
      · have h2' : ¬ 0 < sharedCount (jsSentences text) b a := by
          rwa [sharedCount_comm]
        simp [h1, Ne.symm h1, h2, h2']

/-- Witness for `claim10_mirror_symmetry` at a concrete text and concept
pair. -/
theorem claim10_mirror_symmetry_witness :
    (([conceptG, conceptP].map Concept.id).Nodup ∧
      conceptG ∈ [conceptG, conceptP] ∧ conceptP ∈ [conceptG, conceptP] ∧
      conceptG.id ≠ conceptP.id) ∧
    mirrorSpec textGP [conceptG, conceptP] conceptG conceptP :=
  ⟨by decide,
   claim10_mirror_symmetry textGP [conceptG, conceptP] conceptG conceptP
     (by decide) (by decide) (by decide) (by decide)⟩

/-! ## C5 — endpoint validity through the whole pipeline -/

theorem identify_endpoints (text : String) (cs : List Concept) :
    ∀ r ∈ identifyConceptRelationships text cs,
      r.source ∈ cs.map Concept.id ∧ r.target ∈ cs.map Concept.id := by
  intro r hr
  rcases mem_identify.1 hr with ⟨s, hs, t, ht, -, -, rfl⟩
  exact ⟨List.mem_map_of_mem Concept.id hs, List.mem_map_of_mem Concept.id ht⟩

theorem classify_shape (rng : ℕ → Fin 3) (rels : List Relationship) :
    ∀ x ∈ classifyRelationshipTypes rng rels,
      ∃ r ∈ rels, x.source = r.source ∧ x.target = r.target := by
  intro x hx
  rcases mem_mapIdxFrom hx with ⟨j, r, hr, rfl⟩
  exact ⟨r, hr, rfl, rfl⟩

theorem assign_shape (rels : List Relationship) :
    ∀ x ∈ assignRelationshipStrength rels,
      ∃ r ∈ rels, x.source = r.source ∧ x.target = r.target := by
  intro x hx
  rcases List.mem_map.1 hx with ⟨r, hr, rfl⟩
  exact ⟨r, hr, rfl, rfl⟩

theorem validate_endpoints (rels : List Relationship) (cs : List Concept) :
    ∀ r ∈ validateRelationshipCoherence rels cs,
      r.source ∈ cs.map Concept.id ∧ r.target ∈ cs.map Concept.id := by
  intro r hr
  unfold validateRelationshipCoherence at hr
  rcases List.mem_filter.1 hr with ⟨hr1, -⟩
  rcases List.mem_filter.1 hr1 with ⟨-, hpred⟩
  rw [Bool.and_eq_true] at hpred
  rcases hpred with ⟨hs, ht⟩
  exact ⟨by simpa using hs, by simpa using ht⟩

theorem map_preserves_ids (f : Concept → Concept) (hf : ∀ c, (f c).id = c.id)
    (cs : List Concept) : (cs.map f).map Concept.id = cs.map Concept.id := by
  rw [List.map_map]
  exact map_congr_mem (fun c _ => hf c)

theorem runStage1_relationships (cfg : Config) (text : String) (r : Result) :
    (runStage1 cfg text r).relationships = r.relationships := by
  unfold runStage1 step1_OrganizeAndHierarchize
  split <;> rfl

theorem runStage2_valid (cfg : Config) (rng : ℕ → Fin 3) (text : String)
    (r : Result) (h : relationshipEndpointsValid r) :
    relationshipEndpointsValid (runStage2 cfg rng text r) := by
  unfold runStage2
  split
  · intro rel hrel
    unfold step2_AnalyzeRelationships at hrel ⊢
    simp only at hrel ⊢
    rcases assign_shape _ rel hrel with ⟨r1, hr1, hs1, ht1⟩
    rcases classify_shape rng _ r1 hr1 with ⟨r0, hr0, hs0, ht0⟩
    have := identify_endpoints text r.concepts r0 hr0
    rw [hs1, ht1, hs0, ht0]
    exact this
  · exact h

theorem runStage3_valid (cfg : Config) (r : Result)
    (h : relationshipEndpointsValid r) :
    relationshipEndpointsValid (runStage3 cfg r) := by
  unfold runStage3
  split
  · intro rel hrel
    unfold step3_EnrichSemantically at hrel ⊢
    simp only at hrel ⊢
    rw [map_preserves_ids enrichConcept (fun c => rfl)]
    exact h rel hrel
  · exact h

theorem runStage4_valid (cfg : Config) (r : Result)
    (h : relationshipEndpointsValid r) :
    relationshipEndpointsValid (runStage4 cfg r) := by
  unfold runStage4
  split
  · intro rel hrel
    unfold step4_VerifyAndValidate at hrel ⊢
    simp only at hrel ⊢
    exact validate_endpoints _ _ rel hrel
  · exact h

theorem runStage5_valid (cfg : Config) (r : Result)
    (h : relationshipEndpointsValid r) :
    relationshipEndpointsValid (runStage5 cfg r) := by
  unfold runStage5
  split
  · intro rel hrel
    unfold step5_OptimizeVisualPresentation at hrel ⊢
    simp only at hrel ⊢
    rcases List.mem_map.1 hrel with ⟨r1, hr1, rfl⟩
    rw [map_preserves_ids (formatConcept _) (fun c => rfl)]
    exact h r1 hr1
  · exact h

theorem runStage6_valid (cfg : Config) (r : Result)
    (h : relationshipEndpointsValid r) :
    relationshipEndpointsValid (runStage6 cfg r) := by
  unfold runStage6
  split
  · exact h
  · exact h

theorem runLimit_valid (cfg : Config) (r : Result)
    (h : relationshipEndpointsValid r) :
    relationshipEndpointsValid (runLimit cfg r) := by
  unfold runLimit
  split
  · intro rel hrel
    unfold applyLimit at hrel ⊢
    simp only at hrel ⊢
    rcases List.mem_filter.1 hrel with ⟨-, hpred⟩
    rw [Bool.and_eq_true] at hpred
    rcases hpred with ⟨hs, ht⟩
    exact ⟨by simpa using hs, by simpa using ht⟩
  · exact h

/-- C5 (confirmed): for every non-empty text, configuration and oracle, every
relationship of the final `Result` has both endpoints among the final
concepts' ids. -/
theorem claim5_endpoints_valid (text : String) (cfg : Config)
    (rng : ℕ → Fin 3) (_htext : text ≠ "") :
    relationshipEndpointsValid (processText text cfg rng) := by
  have h0 : relationshipEndpointsValid (initResult text) := by
    intro rel hrel
    cases hrel
  have h1 : relationshipEndpointsValid
      (runStage1 cfg text (initResult text)) := by
    intro rel hrel
    rw [runStage1_relationships] at hrel
    cases hrel
  have h2 := runStage2_valid cfg rng text _ h1
  have h3 := runStage3_valid cfg _ h2
  have h4 := runStage4_valid cfg _ h3
  have h5 := runStage5_valid cfg _ h4
  have h6 := runStage6_valid cfg _ h5
  have h7 := runLimit_valid cfg _ h6
  unfold processText
  exact h7

/-- Witness for `claim5_endpoints_valid`: a text that produces two
relationships; the invariant instantiates at the first of them. -/
theorem claim5_endpoints_valid_witness :
    ("gatos pescado. gatos pescado." ≠ "") ∧
    ((processText "gatos pescado. gatos pescado." defaultConfig
        constRng).relationships.getD 0 default ∈
      (processText "gatos pescado. gatos pescado." defaultConfig
        constRng).relationships) ∧
    (((processText "gatos pescado. gatos pescado." defaultConfig
        constRng).relationships.getD 0 default).source ∈
      (processText "gatos pescado. gatos pescado." defaultConfig
        constRng).concepts.map Concept.id ∧
     ((processText "gatos pescado. gatos pescado." defaultConfig
        constRng).relationships.getD 0 default).target ∈
      (processText "gatos pescado. gatos pescado." defaultConfig
        constRng).concepts.map Concept.id) :=
  ⟨by decide, by with_unfolding_all decide,
   claim5_endpoints_valid "gatos pescado. gatos pescado." defaultConfig
     constRng (by decide) _ (by with_unfolding_all decide)⟩

/-! ## C1 and C8 — degenerate inputs -/

theorem splitRuns_nil_of_all (p : Char → Bool) :
    ∀ l : List Char, (∀ c ∈ l, p c = true) → splitRuns p l = [] := by
  intro l
  induction l with
  | nil => intro _; rfl
  | cons c cs ih =>
    intro h
    unfold splitRuns
    rw [if_pos (h c (List.mem_cons_self c cs))]
    exact ih (fun d hd => h d (List.mem_cons_of_mem c hd))

theorem jsSplitWs_all_empty (s : String)
    (h : ∀ c ∈ s.data, jsIsWs c = true) :
    ∀ w ∈ jsSplitWs s, w = "" := by
  intro w hw
  unfold jsSplitWs at hw
  by_cases hs : s.data = []
  · rw [dif_pos hs] at hw
    simpa using hw
  · rw [dif_neg hs, splitRuns_nil_of_all jsIsWs s.data h] at hw
    simp only [List.map_nil, List.append_nil] at hw
    rcases List.mem_append.1 hw with h1 | h1 <;> (split at h1 <;> simp_all)

theorem bumpFreq_keys (w : String) :
    ∀ (tbl : List (String × ℕ)) (kv : String × ℕ), kv ∈ bumpFreq tbl w →
      kv.1 = w ∨ ∃ kv' ∈ tbl, kv.1 = kv'.1 := by
  intro tbl
  induction tbl with
  | nil =>
    intro kv hkv
    simp only [bumpFreq, List.mem_singleton] at hkv
    exact Or.inl (by rw [hkv])
  | cons p rest ih =>
    rcases p with ⟨k, n⟩
    intro kv hkv
    simp only [bumpFreq] at hkv
    by_cases hc : k = w
    · rw [if_pos hc] at hkv
      rcases List.mem_cons.1 hkv with rfl | hkv
      · exact Or.inl hc
      · exact Or.inr ⟨kv, List.mem_cons_of_mem _ hkv, rfl⟩
    · rw [if_neg hc] at hkv
      rcases List.mem_cons.1 hkv with rfl | hkv
      · exact Or.inr ⟨(k, n), List.mem_cons_self _ _, rfl⟩
      · rcases ih kv hkv with h | ⟨kv', h1, h2⟩
        · exact Or.inl h
        · exact Or.inr ⟨kv', List.mem_cons_of_mem _ h1, h2⟩

theorem wordFrequency_keys :
    ∀ (ws : List String) (tbl : List (String × ℕ)) (kv : String × ℕ),
      kv ∈ ws.foldl (fun tbl word =>
        let cw := cleanWord word
        if cw.length > 3 then bumpFreq tbl cw else tbl) tbl →
      (∃ kv' ∈ tbl, kv.1 = kv'.1) ∨
        ∃ w ∈ ws, kv.1 = cleanWord w ∧ 3 < (cleanWord w).length := by
  intro ws
  induction ws with
  | nil =>
    intro tbl kv hkv
    exact Or.inl ⟨kv, hkv, rfl⟩
  | cons w ws' ih =>
    intro tbl kv hkv
    simp only [List.foldl_cons] at hkv
    rcases ih _ kv hkv with ⟨kv', hkv', heq⟩ | ⟨w', hw', heq, hlen⟩
    · by_cases hw : (cleanWord w).length > 3
      · rw [if_pos hw] at hkv'
        rcases bumpFreq_keys (cleanWord w) tbl kv' hkv' with h | ⟨kv'', h2, h3⟩
        · exact Or.inr ⟨w, List.mem_cons_self w ws', heq.trans h, hw⟩
        · exact Or.inl ⟨kv'', h2, heq.trans h3⟩
      · rw [if_neg hw] at hkv'
        exact Or.inl ⟨kv', hkv', heq⟩
    · exact Or.inr ⟨w', List.mem_cons_of_mem w hw', heq, hlen⟩

theorem extractMainConcepts_nil (text : String)
    (h : ∀ w ∈ jsSplitWs text,
      (cleanWord w).length ≤ 3 ∨ cleanWord w ∈ commonWords) :
    extractMainConcepts text = [] := by
  have hfilter : (((jsSplitWs text).foldl (fun tbl word =>
      let cw := cleanWord word
      if cw.length > 3 then bumpFreq tbl cw else tbl) []).filter
        (fun kv => ¬ commonWords.contains kv.1)) = [] := by
    rw [List.filter_eq_nil_iff]
    intro kv hkv
    rcases wordFrequency_keys (jsSplitWs text) [] kv hkv with
      ⟨kv', hkv', -⟩ | ⟨w, hw, heq, hlen⟩
    · cases hkv'
    · rcases h w hw with hshort | hcommon
      · omega
      · simp [heq, hcommon]
  unfold extractMainConcepts wordFrequency
  simp only
  rw [hfilter]
  rfl

theorem generateEducationalConceptMap_empty (r : Result)
    (h : r.concepts = []) :
    generateEducationalConceptMap r = "# Mapa Conceptual\n\n" := by
  unfold generateEducationalConceptMap
  rw [h]
  rfl

theorem runStage2_empty (cfg : Config) (rng : ℕ → Fin 3) (text : String)
    (r : Result) (h : r.concepts = [] ∧ r.relationships = []) :
    (runStage2 cfg rng text r).concepts = [] ∧
      (runStage2 cfg rng text r).relationships = [] := by
  unfold runStage2 step2_AnalyzeRelationships
  split
  · refine ⟨h.1, ?_⟩
    simp only
    unfold identifyConceptRelationships
    rw [h.1]
    rfl
  · exact h

theorem runStage3_empty (cfg : Config) (r : Result)
    (h : r.concepts = [] ∧ r.relationships = []) :
    (runStage3 cfg r).concepts = [] ∧ (runStage3 cfg r).relationships = [] := by
  unfold runStage3 step3_EnrichSemantically
  split
  · simp only
    rw [h.1]
    exact ⟨rfl, h.2⟩
  · exact h

theorem runStage4_empty (cfg : Config) (r : Result)
    (h : r.concepts = [] ∧ r.relationships = []) :
    (runStage4 cfg r).concepts = [] ∧ (runStage4 cfg r).relationships = [] := by
  unfold runStage4 step4_VerifyAndValidate
  split
  · simp only
    rw [h.1, h.2]
    exact ⟨rfl, rfl⟩
  · exact h

theorem runStage5_empty (cfg : Config) (r : Result)
    (h : r.concepts = [] ∧ r.relationships = []) :
    (runStage5 cfg r).concepts = [] ∧ (runStage5 cfg r).relationships = [] := by
  unfold runStage5 step5_OptimizeVisualPresentation
  split
  · simp only
    rw [h.1, h.2]
    exact ⟨rfl, rfl⟩
  · exact h

theorem runStage6_empty (cfg : Config) (r : Result)
    (h : r.concepts = [] ∧ r.relationships = []) :
    (runStage6 cfg r).concepts = [] ∧ (runStage6 cfg r).relationships = [] := by
  unfold runStage6
  split
  · exact h
  · exact h

theorem runLimit_empty (cfg : Config) (r : Result)
    (h : r.concepts = [] ∧ r.relationships = []) :
    (runLimit cfg r).concepts = [] ∧ (runLimit cfg r).relationships = [] := by
  unfold runLimit
  rw [h.1]
  simp only [List.length_nil]
  rw [if_neg (by omega)]
  exact h

theorem processText_no_concepts (text : String) (cfg : Config)
    (rng : ℕ → Fin 3) (h : extractMainConcepts text = []) :
    zeroConceptOutcome text cfg rng := by
  have h1 : (runStage1 cfg text (initResult text)).concepts = [] ∧
      (runStage1 cfg text (initResult text)).relationships = [] := by
    unfold runStage1 step1_OrganizeAndHierarchize
    split
    · simp only
      rw [h]
      exact ⟨rfl, rfl⟩
    · exact ⟨rfl, rfl⟩
  have h2 := runStage2_empty cfg rng text _ h1
  have h3 := runStage3_empty cfg _ h2
  have h4 := runStage4_empty cfg _ h3
  have h5 := runStage5_empty cfg _ h4
  have h6 := runStage6_empty cfg _ h5
  have h7 := runLimit_empty cfg _ h6
  unfold zeroConceptOutcome processText
  refine ⟨h7.1, h7.2, ?_, ?_⟩
  · exact generateEducationalConceptMap_empty _ h7.1
  · simp only [h7.1, List.length_nil]

/-- C1 (corrected): empty or whitespace-only text is **not** rejected — the
canonical `processText` has no input validation and no failure path (its only
`catch` rethrows), so it runs every enabled stage and returns a perfectly
ordinary `Result` with zero concepts, zero relationships and the bare document
header as content.  (The HTTP controller, outside the service, is what
rejects a missing/empty `text` field.) -/
theorem claim1_whitespace_not_rejected (text : String) (cfg : Config)
    (rng : ℕ → Fin 3) (h : ∀ c ∈ text.data, jsIsWs c = true) :
    zeroConceptOutcome text cfg rng := by
  apply processText_no_concepts
  apply extractMainConcepts_nil
  intro w hw
  rw [jsSplitWs_all_empty text h w hw]
  exact Or.inl (by decide)

/-- Witness for `claim1_whitespace_not_rejected` on a whitespace-only text. -/
theorem claim1_whitespace_not_rejected_witness :
    (∀ c ∈ (" \n " : String).data, jsIsWs c = true) ∧
      zeroConceptOutcome " \n " defaultConfig constRng :=
  ⟨by decide, claim1_whitespace_not_rejected " \n " defaultConfig constRng
    (by decide)⟩

/-- C1's counterexample: on the empty string, `processText` does not abort —
stage 1 and stage 4 both run and record their stage results, and a `Result`
(with zero concepts and the header content) **is** produced. -/
theorem claim1_counterexample :
    (processText "" defaultConfig constRng).metadata.stageResults.organization
        = some 0 ∧
    (processText "" defaultConfig constRng).metadata.stageResults.validation
        ≠ none ∧
    (processText "" defaultConfig constRng).content = "# Mapa Conceptual\n\n" ∧
    (processText "" defaultConfig constRng).metadata.conceptCount = 0 := by
  refine ⟨?_, ?_, ?_, ?_⟩ <;> with_unfolding_all decide

/-- C8 (corrected): the zero-concept outcome needs **zero** eligible tokens
(every whitespace token cleans to 3 characters or fewer, or is a stop word),
not "fewer than 4"; the resulting content is the bare header
`# Mapa Conceptual` — no dedicated placeholder message exists in the
canonical service — and `processText` is total, so nothing can throw. -/
theorem claim8_no_eligible_tokens (text : String) (cfg : Config)
    (rng : ℕ → Fin 3) (_htext : text ≠ "")
    (h : ∀ w ∈ jsSplitWs text,
      (cleanWord w).length ≤ 3 ∨ cleanWord w ∈ commonWords) :
    zeroConceptOutcome text cfg rng :=
  processText_no_concepts text cfg rng (extractMainConcepts_nil text h)

/-- Witness for `claim8_no_eligible_tokens`: a text of short and stop
words. -/
theorem claim8_no_eligible_tokens_witness :
    (("si o no para ti." ≠ "") ∧
      ∀ w ∈ jsSplitWs "si o no para ti.",
        (cleanWord w).length ≤ 3 ∨ cleanWord w ∈ commonWords) ∧
    zeroConceptOutcome "si o no para ti." defaultConfig constRng :=
  ⟨⟨by decide, by decide⟩,
   claim8_no_eligible_tokens "si o no para ti." defaultConfig constRng
     (by decide) (by decide)⟩

/-- C8's counterexample: `"hola hola."` has exactly **one** distinct eligible
token (fewer than 4), yet the pipeline yields one concept, not zero. -/
theorem claim8_counterexample :
    ((wordFrequency (jsSplitWs "hola hola.")).filter
        (fun kv => ¬ commonWords.contains kv.1)).length = 1 ∧
    (processText "hola hola." defaultConfig constRng).concepts.length = 1 := by
  refine ⟨?_, ?_⟩ <;> with_unfolding_all decide

end ConceptMapService
